import Mathlib

/-!
# Event channel manager (`src/src/services/WebSocketService.js`)

Shallow embedding of the `SocketService` class: the object's fields, its methods
and the handlers that `setupEventListeners` registers on the socket.

The socket.io transport is not part of the repository.  It is represented by
* the list `sockets` of every socket object that `io(...)` has returned, each with
  the options it was created with, the `connected` / `connecting` flags the manager
  reads, a `closed` flag set by `socket.disconnect()` and the messages emitted on it;
* the log `errorCalls` of the invocations of the error callback and the log `alerts`
  of `Alert.alert` dialogs.

Calls into the transport library (`io`, `socket.disconnect`, `socket.emit`) are taken to
return normally, so the three `catch` blocks that guard them are never entered.
-/

namespace SocketService

/-- JavaScript value received as the token: `null`, `undefined` or a string. -/
inductive Token where
  | null
  | undefined
  | str (s : String)
deriving DecidableEq, Repr

/-- JavaScript truthiness of a token: `!this.token` is false only for a non-empty string. -/
def Token.truthy : Token → Bool
  | .str s => s != ""
  | _ => false

/-- Value stored in `onConnectionError`: `null` (the default), a function (identified by a
number) or some other value that is not a function. -/
inductive Callback where
  | null
  | fn (id : Nat)
  | notFunction
deriving DecidableEq, Repr

/-- Socket object returned by `io(baseUrl, options)`: the options of lines 40-50, the two
flags read by `sendMessage` and `getConnectionStatus`, whether `socket.disconnect()` has
been called on it, and the messages emitted on it (event name, payload fields). -/
structure Socket where
  url : String
  auth : Token
  transports : List String
  reconnection : Bool
  reconnectionAttempts : Nat
  reconnectionDelay : Nat
  reconnectionDelayMax : Nat
  timeout : Nat
  forceNew : Bool
  rejectUnauthorized : Bool
  connected : Bool
  connecting : Bool
  closed : Bool
  emitted : List (String × List (String × String))
deriving DecidableEq, Repr

end SocketService

/-- Fields of the `SocketService` object (constructor, lines 6-17) followed by the
transport and callback logs described in the header. -/
structure SocketService where
  socket : Option Nat
  token : SocketService.Token
  reconnectAttempts : Nat
  maxReconnectAttempts : Nat
  reconnectTimeout : Option Nat
  baseUrl : String
  wsBaseUrl : String
  onConnectionError : SocketService.Callback
  connectionStatus : String
  pingInterval : Option Nat
  sockets : List SocketService.Socket
  errorCalls : List (Nat × String)
  alerts : List String
deriving DecidableEq, Repr

namespace SocketService

/-- The `constructor()`: the singleton as exported by the module, with empty logs. -/
def constructor : SocketService where
  socket := none
  token := .null
  reconnectAttempts := 0
  maxReconnectAttempts := 5
  reconnectTimeout := none
  baseUrl := "https://zylo.vet"
  wsBaseUrl := "wss://zylo.vet"
  onConnectionError := .null
  connectionStatus := "disconnected"
  pingInterval := none
  sockets := []
  errorCalls := []
  alerts := []

/-- `handleConnectionError(message)`: calls the stored callback when it is a function. -/
def handleConnectionError (s : SocketService) (message : String) : SocketService :=
  match s.onConnectionError with
  | .fn id => { s with errorCalls := s.errorCalls ++ [(id, message)] }
  | _ => s

/-- `disconnect()`: calls `socket.disconnect()` on the held socket and drops the reference,
then stores `'disconnected'`. -/
def disconnect (s : SocketService) : SocketService :=
  let s1 : SocketService :=
    match s.socket with
    | some i =>
      { s with
        sockets := List.modify (fun c => { c with closed := true, connected := false }) i s.sockets
        socket := none }
    | none => s
  { s1 with connectionStatus := "disconnected" }

/-- The call `io(this.baseUrl, options)` of lines 40-50: a new socket, not yet connected. -/
def io (s : SocketService) : Socket where
  url := s.baseUrl
  auth := s.token
  transports := ["websocket"]
  reconnection := true
  reconnectionAttempts := s.maxReconnectAttempts
  reconnectionDelay := 1000
  reconnectionDelayMax := 5000
  timeout := 10000
  forceNew := true
  rejectUnauthorized := false
  connected := false
  connecting := false
  closed := false
  emitted := []

/-- `setupEventListeners()`: registers the handlers on the held socket.  The handlers are
the functions `onConnect` ... `onAuthError` below; registering them changes no field. -/
def setupEventListeners (s : SocketService) : SocketService := s

/-- `connect()`: reports an error and returns when the token is falsy; otherwise tears down
the held socket, if any, creates a new one and registers the handlers. -/
def connect (s : SocketService) : SocketService :=
  if s.token.truthy = false then
    handleConnectionError s "SocketService: No token provided for connection"
  else
    let s1 := if s.socket.isSome then disconnect s else s
    let s2 : SocketService :=
      { s1 with socket := some s1.sockets.length, sockets := s1.sockets ++ [io s1] }
    setupEventListeners s2

/-- Embeds the method `initialize(token, errorCallback = null)`. -/
def initialise (s : SocketService) (token : Token) (errorCallback : Callback) : SocketService :=
  connect { s with token := token, onConnectionError := errorCallback,
                   connectionStatus := "connecting" }

/-- `sendMessage(event, data)`: emits on the held socket when it reports `connected`. -/
def sendMessage (s : SocketService) (event : String) (data : List (String × String)) :
    SocketService :=
  match s.socket with
  | some i =>
    match s.sockets[i]? with
    | some c =>
      if c.connected then
        { s with
          sockets := List.modify (fun c => { c with emitted := c.emitted ++ [(event, data)] }) i s.sockets }
      else s
    | none => s
  | none => s

/-- `getConnectionStatus()`: refreshes `connectionStatus` from the flags of the held socket
and returns it (second component). -/
def getConnectionStatus (s : SocketService) : SocketService × String :=
  let s1 : SocketService :=
    match s.socket with
    | some i =>
      match s.sockets[i]? with
      | some c =>
        if c.connected then { s with connectionStatus := "connected" }
        else if c.connecting then { s with connectionStatus := "connecting" }
        else { s with connectionStatus := "disconnected" }
      | none => s
    | none => s
  (s1, s1.connectionStatus)

/-! ### Handlers registered by `setupEventListeners` -/

/-- Handler of `'connect'` (lines 63-68). -/
def onConnect (s : SocketService) : SocketService :=
  sendMessage { s with reconnectAttempts := 0, connectionStatus := "connected" }
    "client_ready" [("platform", "mobile")]

/-- Text of `error.message` inside a template literal: a missing message prints as
`undefined`. -/
def templateText : Option String → String
  | some m => m
  | none => "undefined"

/-- The JavaScript expression `x || fallback` for an optional string `x`. -/
def orElse (x : Option String) (fallback : String) : String :=
  match x with
  | some m => if m = "" then fallback else m
  | none => fallback

/-- The template literal of line 73 for a given `error.message`. -/
def connectErrorMessage (message : Option String) : String :=
  "Bağlantı hatası: " ++ templateText message

/-- Handler of `'connect_error'` (lines 71-74) for an event that carries its payload;
`message` is `error.message`.  For an event without payload see `handle`. -/
def onConnectError (s : SocketService) (message : Option String) : SocketService :=
  handleConnectionError { s with connectionStatus := "error" } (connectErrorMessage message)

/-- Handler of `'disconnect'` (lines 76-82). -/
def onDisconnect (s : SocketService) (reason : String) : SocketService :=
  let s1 := { s with connectionStatus := "disconnected" }
  if reason = "io server disconnect" then connect s1 else s1

/-- Handler of the manager event `'reconnect_attempt'` (lines 84-86). -/
def onReconnectAttempt (s : SocketService) (_attempt : Nat) : SocketService :=
  { s with connectionStatus := "connecting" }

/-- The message reported when the transport gives up reconnecting. -/
def reconnectFailedMessage : String :=
  "Sunucuya bağlanılamıyor. Lütfen internet bağlantınızı kontrol edin ve uygulamayı yeniden başlatın."

/-- Handler of the manager event `'reconnect_failed'` (lines 88-91). -/
def onReconnectFailed (s : SocketService) : SocketService :=
  handleConnectionError { s with connectionStatus := "error" } reconnectFailedMessage

/-- Handler of the manager event `'reconnect'` (lines 93-95). -/
def onReconnect (s : SocketService) (_attempt : Nat) : SocketService :=
  { s with connectionStatus := "connected" }

/-- Handler of `'error'` (lines 97-99) for an event that carries its payload; `message` is
`error.message`.  For an event without payload see `handle`. -/
def onError (s : SocketService) (message : Option String) : SocketService :=
  handleConnectionError s ("Socket hatası: " ++ orElse message "Bilinmeyen hata")

/-- Handler of `'auth_error'` (lines 101-110) for an event that carries its payload;
`message` is `data.message`.  For an event without payload see `handle`. -/
def onAuthError (s : SocketService) (message : Option String) : SocketService :=
  let s1 := handleConnectionError s ("Yetkilendirme hatası: " ++ orElse message "Token geçersiz")
  { s1 with alerts := s1.alerts ++ ["Yetkilendirme Hatası"] }

/-- Events the transport delivers to the registered handlers.  `connectError`, `error` and
`authError` carry a payload object whose `message` may be missing; the three
`...WithoutPayload` events are the same events delivered with no argument at all.  `other`
stands for every remaining registered event (`server_ready`, `pong`, the chat and
notification events): their handlers read and write no field of the object. -/
inductive Event where
  | connect
  | connectError (message : Option String)
  | disconnect (reason : String)
  | reconnectAttempt (attempt : Nat)
  | reconnectFailed
  | reconnect (attempt : Nat)
  | error (message : Option String)
  | authError (message : Option String)
  | other (name : String)
  | connectErrorWithoutPayload
  | errorWithoutPayload
  | authErrorWithoutPayload
deriving DecidableEq, Repr

/-- The transport changes the flags of the held socket. -/
def setFlags (s : SocketService) (connected connecting : Bool) : SocketService :=
  match s.socket with
  | some i =>
    { s with
      sockets := List.modify (fun c => { c with connected := connected, connecting := connecting }) i s.sockets }
  | none => s

/-- Delivery of an event: socket.io sets `connected` before it emits `'connect'` and clears
it before it emits `'disconnect'`; then the registered handler runs.  For an event without
payload the handlers of `error` and `auth_error` throw when they read `.message`, before
any statement has run, and the handler of `connect_error` throws after the assignment of
line 72; the state is the one the handler leaves when the exception escapes. -/
def handle (s : SocketService) : Event → SocketService
  | .connect => onConnect (setFlags s true false)
  | .connectError m => onConnectError s m
  | .disconnect r => onDisconnect (setFlags s false false) r
  | .reconnectAttempt n => onReconnectAttempt s n
  | .reconnectFailed => onReconnectFailed s
  | .reconnect n => onReconnect s n
  | .error m => onError s m
  | .authError m => onAuthError s m
  | .other _ => s
  | .connectErrorWithoutPayload => { s with connectionStatus := "error" }
  | .errorWithoutPayload => s
  | .authErrorWithoutPayload => s

/-- The exception that escapes from the handler of an event, if any: the `TypeError` of
reading `.message` on a missing payload (lines 73, 98 and 102). -/
def uncaught : Event → Option String
  | .connectErrorWithoutPayload => some "TypeError: message of undefined"
  | .errorWithoutPayload => some "TypeError: message of undefined"
  | .authErrorWithoutPayload => some "TypeError: message of undefined"
  | _ => none

/-- What can happen to the manager: a call of one of its public methods, the delivery of a
transport event, or a change of the held socket's flags by the transport. -/
inductive Action where
  | initialise (token : Token) (errorCallback : Callback)
  | connect
  | disconnect
  | getConnectionStatus
  | event (e : Event)
  | flags (connected connecting : Bool)
deriving DecidableEq, Repr

/-- One step of the manager. -/
def step (s : SocketService) : Action → SocketService
  | .initialise t cb => initialise s t cb
  | .connect => connect s
  | .disconnect => disconnect s
  | .getConnectionStatus => (getConnectionStatus s).1
  | .event e => handle s e
  | .flags c g => setFlags s c g

/-- Runs a sequence of actions, oldest first. -/
def run (s : SocketService) (acts : List Action) : SocketService :=
  acts.foldl step s

/-- Number of sockets created so far that `socket.disconnect()` has not been called on. -/
def liveCount (s : SocketService) : Nat :=
  (s.sockets.filter (fun c => !c.closed)).length

/-- The held socket object, if any. -/
def heldSocket (s : SocketService) : Option Socket :=
  match s.socket with
  | some i => s.sockets[i]?
  | none => none

/-- A connect failure as the transport reports it: `connect_error` or `reconnect_attempt`. -/
def isConnectFailure : Event → Bool
  | .connectError _ => true
  | .reconnectAttempt _ => true
  | _ => false

/-- The steps that can follow `reconnect_failed` before the next `initialize`: the calls that
the coordinator makes besides `initialize` (`disconnect` and `getConnectionStatus`; nothing
in the repository calls `connect` directly), flag changes, and every transport event except
a `disconnect` with reason `'io server disconnect'`, which is raised by a packet from the
server and so cannot come from a transport that has given up reconnecting. -/
def followsGiveUp : Action → Bool
  | .initialise _ _ => false
  | .connect => false
  | .event (.disconnect r) => decide (r ≠ "io server disconnect")
  | _ => true

/-- The steps whose code can reach the call of `io`: `initialize`, `connect` and the
`disconnect` handler when the reason is `'io server disconnect'`. -/
def createsSocket : Action → Bool
  | .initialise _ _ => true
  | .connect => true
  | .event (.disconnect r) => decide (r = "io server disconnect")
  | _ => false

/-! ### Scenarios used below -/

/-- A manager that has connected once: `initialize("tok")` followed by the `connect` event. -/
def connectedOnce : SocketService :=
  run constructor [.initialise (.str "tok") (.fn 0), .event .connect]

/-- Every socket that is not torn down is the held one, and the held reference points
into the list of created sockets. -/
def OneLive (s : SocketService) : Prop :=
  (∀ (i : Nat) (c : Socket), s.sockets[i]? = some c → c.closed = false → s.socket = some i)
    ∧ (∀ i : Nat, s.socket = some i → i < s.sockets.length)

/-- Every created socket has been torn down. -/
def NoLive (s : SocketService) : Prop :=
  ∀ (i : Nat) (c : Socket), s.sockets[i]? = some c → c.closed = true

/-! ### Notification dispatch (`showNotification`, lines 334-469) -/

/-- The `message` field of an event handed to `showNotification`: missing, a string, or an
object with an optional `content`. -/
inductive MessageValue where
  | absent
  | text (s : String)
  | object (content : Option String)
deriving DecidableEq, Repr

/-- The object handed to `showNotification`, with the fields the function reads (`type`,
`title`, `body`, `content`, `priority`, `sender_name`, `message`) and the `category` the
handlers store.  A missing field is `none`. -/
structure NotificationData where
  type : Option String
  title : Option String
  body : Option String
  content : Option String
  priority : Option String
  sender_name : Option String
  message : MessageValue
  category : Option String
deriving DecidableEq, Repr

/-- Value of the `sound` field of a presentation: a sound file or `false`. -/
inductive Sound where
  | file (path : String)
  | off
deriving DecidableEq, Repr

/-- The `content` submitted to `Notifications.scheduleNotificationAsync`.  Fields that the
function does not set are `none`. -/
structure NotificationContent where
  title : String
  body : String
  data : NotificationData
  sound : Sound
  badge : Nat
  categoryIdentifier : Option String
  priority : Option String
  vibrate : Option (List Nat)
deriving DecidableEq, Repr

/-- The sound file of lines 340 and 453. -/
def alertSound : String := "./assets/notification_sound.wav"

/-- The initial `notificationContent` of lines 336-342. -/
def baseContent (data : NotificationData) : NotificationContent where
  title := orElse data.title "Yeni Bildirim"
  body := orElse data.body (orElse data.content "Yeni bir bildiriminiz var")
  data := data
  sound := .file alertSound
  badge := 1
  categoryIdentifier := none
  priority := none
  vibrate := none

/-- The body computed in the `chat:new_message` case (lines 348-350). -/
def chatBody : MessageValue → String
  | .text s => s
  | .object content => orElse content "Yeni bir mesaj aldınız"
  | .absent => "Yeni bir mesaj aldınız"

/-- The event types with a `case` of their own in the `switch` of lines 345-449
(`notification:new` shares the `default` case). -/
def recognisedTypes : List String :=
  ["chat:new_message", "doctor_assignment", "examination_created", "appointment_created",
    "product_low_stock", "prescription_created", "daily_report", "pending_prescriptions",
    "incomplete_examinations", "system"]

/-- The `switch (data.type)` of lines 345-449, case by case in source order. -/
def customise (data : NotificationData) (c : NotificationContent) : NotificationContent :=
  if data.type = some "chat:new_message" then
    { c with title := orElse data.sender_name "Bilinmeyen Kişi" ++ " tarafından yeni mesaj",
             body := chatBody data.message,
             categoryIdentifier := some "chat" }
  else if data.type = some "doctor_assignment" then
    { c with title := "👨‍⚕️ Hekim Ataması",
             categoryIdentifier :=
               some (if data.priority = some "urgent" then "urgent" else "medical"),
             priority := some "high" }
  else if data.type = some "examination_created" then
    { c with title := "🩺 Yeni Muayene", categoryIdentifier := some "medical",
             priority := some "default" }
  else if data.type = some "appointment_created" then
    { c with title := "📅 Yeni Randevu", categoryIdentifier := some "system",
             priority := some "default" }
  else if data.type = some "product_low_stock" then
    { c with title := "⚠️ Stok Uyarısı",
             categoryIdentifier :=
               some (if data.priority = some "urgent" then "urgent" else "system"),
             priority := some "high" }
  else if data.type = some "prescription_created" then
    { c with title := "💊 Yeni Reçete", categoryIdentifier := some "medical",
             priority := some "default" }
  else if data.type = some "daily_report" then
    { c with title := "📊 Günlük Rapor", categoryIdentifier := some "system",
             priority := some "low" }
  else if data.type = some "pending_prescriptions" then
    { c with title := "⏰ Bekleyen Reçeteler", categoryIdentifier := some "reminder",
             priority := some "default" }
  else if data.type = some "incomplete_examinations" then
    { c with title := "📋 Tamamlanmamış Muayeneler", categoryIdentifier := some "reminder",
             priority := some "default" }
  else if data.type = some "system" then
    { c with title := "⚙️ Sistem Bildirimi",
             categoryIdentifier :=
               some (if data.priority = some "urgent" then "urgent" else "system"),
             priority := some (if data.priority = some "urgent" then "high" else "default") }
  else
    { c with title := orElse data.title "🔔 Yeni Bildirim",
             categoryIdentifier := some "default" }

/-- The sound and vibration settings of lines 451-458, chosen from the event's priority. -/
def applyPriority (data : NotificationData) (c : NotificationContent) : NotificationContent :=
  if data.priority = some "urgent" ∨ data.priority = some "high" then
    { c with sound := .file alertSound, vibrate := some [0, 250, 250, 250] }
  else if data.priority = some "low" then
    { c with sound := .off, vibrate := some [0, 100] }
  else c

/-- The content that `showNotification(data)` has built when it reaches line 460. -/
def notificationContent (data : NotificationData) : NotificationContent :=
  applyPriority data (customise data (baseContent data))

/-- `showNotification(data)`: builds the content and submits it; the result is `true` when
`scheduleNotificationAsync` resolves and `false` when it rejects (`scheduled = false`), the
rejection being caught by the `try` block that encloses the whole body. -/
def showNotification (data : NotificationData) (scheduled : Bool) :
    NotificationContent × Bool :=
  (notificationContent data, scheduled)

/-- Payload of a `notification:doctor_assignment` event, with the fields its handler reads. -/
structure AssignmentPayload where
  message : Option String
  patientName : Option String
  petName : Option String
deriving DecidableEq, Repr

/-- The argument that the handler of `notification:doctor_assignment` (lines 204-213) passes
to `showNotification` when the event carries a payload `data`.  The whole handler, also for
an event without payload, is `doctorAssignmentHandler`. -/
def onDoctorAssignment (data : AssignmentPayload) : NotificationData where
  type := some "doctor_assignment"
  title := some "Hekim Ataması"
  body := some (orElse data.message
    (templateText data.patientName ++ " - " ++ templateText data.petName
      ++ " için hekim olarak atandınız"))
  content := none
  priority := some "high"
  sender_name := none
  message := .absent
  category := some "medical"

/-- The handler of `notification:doctor_assignment` (lines 204-213) on an event whose
payload may be missing (`none`): reading `data.message` on a missing payload throws a
`TypeError` before `showNotification` is called, so nothing is submitted; otherwise the
handler calls `showNotification`, whose submitted content and result are returned. -/
def doctorAssignmentHandler (data : Option AssignmentPayload) (scheduled : Bool) :
    Except String (NotificationContent × Bool) :=
  match data with
  | none => .error "TypeError: message of undefined"
  | some payload => .ok (showNotification (onDoctorAssignment payload) scheduled)

/-- The JavaScript `s.includes(sub)` on strings. -/
def includes (s sub : String) : Bool :=
  s.data.tails.any (fun t => sub.data.isPrefixOf t)

/-- The status that `getConnectionStatus` derives from the flags of a held socket. -/
def flagStatus (c : Socket) : String :=
  if c.connected then "connected" else if c.connecting then "connecting" else "disconnected"

/-- The argument that the handler of the generic `notification` event (lines 156-161) passes
to `showNotification`: the payload's own fields, with `type` defaulting to
`'notification'`. -/
def onNotification (data : NotificationData) : NotificationData :=
  { data with type := some (orElse data.type "notification") }

/-- Payload of an `enhanced_notification` event, with the fields its handler reads. -/
structure EnhancedPayload where
  type : Option String
  title : Option String
  message : Option String
  content : Option String
  priority : Option String
  category : Option String
deriving DecidableEq, Repr

/-- The argument that the handler of `enhanced_notification` (lines 191-201) passes to
`showNotification`. -/
def onEnhancedNotification (data : EnhancedPayload) : NotificationData where
  type := some (orElse data.type "notification")
  title := some (orElse data.title "Yeni Bildirim")
  body := some (orElse data.message (orElse data.content "Yeni bir bildiriminiz var"))
  content := none
  priority := data.priority
  sender_name := none
  message := .absent
  category := data.category

/-- Payload of a `notification:product_low_stock` event. -/
structure StockPayload where
  message : Option String
  productName : Option String
deriving DecidableEq, Repr

/-- The argument that the handler of `notification:product_low_stock` (lines 237-246) passes
to `showNotification`. -/
def onProductLowStock (data : StockPayload) : NotificationData where
  type := some "product_low_stock"
  title := some "Stok Uyarısı"
  body := some (orElse data.message (templateText data.productName ++ " ürününde stok azalması"))
  content := none
  priority := some "high"
  sender_name := none
  message := .absent
  category := some "administrative"

/-- Payload of a `notification:system` event. -/
structure SystemPayload where
  message : Option String
  priority : Option String
deriving DecidableEq, Repr

/-- The argument that the handler of `notification:system` (lines 293-302) passes to
`showNotification`. -/
def onSystem (data : SystemPayload) : NotificationData where
  type := some "system"
  title := some "Sistem Bildirimi"
  body := some (orElse data.message "Sistem bildirimi")
  content := none
  priority := some (orElse data.priority "low")
  sender_name := none
  message := .absent
  category := some "system"

/-- The strong vibration pattern of line 454. -/
def strongVibration : List Nat := [0, 250, 250, 250]

/-- The four states of the connection state machine. -/
def ValidStatus (status : String) : Prop :=
  status = "disconnected" ∨ status = "connecting" ∨ status = "connected" ∨ status = "error"

/-- Whether an action is a call of `initialize`. -/
def isInitialise : Action → Bool
  | .initialise _ _ => true
  | _ => false

/-- The message that the handler of an error event hands to `handleConnectionError`; `none`
for the events whose handler reports nothing. -/
def reportedMessage : Event → Option String
  | .connectError m => some (connectErrorMessage m)
  | .reconnectFailed => some reconnectFailedMessage
  | .error m => some ("Socket hatası: " ++ orElse m "Bilinmeyen hata")
  | .authError m => some ("Yetkilendirme hatası: " ++ orElse m "Token geçersiz")
  | _ => none

/-- The calls of the error callback that one report causes: one call when the stored
callback is a function, none otherwise. -/
def callbackCalls (cb : Callback) (message : String) : List (Nat × String) :=
  match cb with
  | .fn id => [(id, message)]
  | _ => []

end SocketService

/-! # HTTP client (`src/src/services/ApiService.js`)

The object's only field is `token`; `storage` is the `'authToken'` entry of AsyncStorage
(`none` when there is no entry).  AsyncStorage calls are taken to return normally. -/

/-- Fields of the `ApiService` object followed by the persisted entry. -/
structure ApiService where
  token : SocketService.Token
  storage : Option String
deriving DecidableEq, Repr

namespace ApiService

open SocketService (Token orElse includes)

/-- What `response.json()` does: returns the parsed data or throws. -/
inductive JsonResult where
  | parsed (data : String)
  | throws (message : Option String)
deriving DecidableEq, Repr

/-- The response that `fetch` resolves with: status, `ok`, the `content-type` header
(`none` when the header is missing), the outcome of `json()` and the result of `text()`. -/
structure Response where
  status : Nat
  ok : Bool
  contentType : Option String
  json : JsonResult
  text : String
deriving DecidableEq, Repr

/-- What the call of `fetch` does: resolves with a response or rejects. -/
inductive FetchReply where
  | response (r : Response)
  | rejected (message : Option String)
deriving DecidableEq, Repr

/-- The object returned by `fetchWithAuth`. -/
structure FetchResult where
  success : Bool
  data : Option String
  error : Option String
  status : Nat
deriving DecidableEq, Repr

/-- `loadTokenFromStorage()`: copies a non-empty persisted entry into `token`. -/
def loadTokenFromStorage (s : ApiService) : ApiService :=
  match s.storage with
  | some t => if t = "" then s else { s with token := .str t }
  | none => s

/-- `clearTokenFromStorage()`: removes the persisted entry and sets `token` to `null`. -/
def clearTokenFromStorage (s : ApiService) : ApiService :=
  { s with storage := none, token := .null }

/-- The `Authorization` header of lines 76-78, present for a non-empty string token. -/
def authorization (s : ApiService) : Option String :=
  match s.token with
  | .str t => if t = "" then none else some ("Bearer " ++ t)
  | _ => none

/-- `fetchWithAuth(endpoint, options)`: the state afterwards, the `Authorization` header
that was sent and the returned object. -/
def fetchWithAuth (s : ApiService) (reply : FetchReply) :
    ApiService × Option String × FetchResult :=
  let s1 := if s.token.truthy = false then loadTokenFromStorage s else s
  let header := authorization s1
  match reply with
  | .rejected m =>
    (s1, header, { success := false, data := none,
                   error := some (orElse m "Network request failed"), status := 0 })
  | .response r =>
    if (match r.contentType with
        | some ct => ct != "" && includes ct "application/json"
        | none => false) then
      match r.json with
      | .throws m =>
        (s1, header, { success := false, data := none,
                       error := some (orElse m "Network request failed"), status := 0 })
      | .parsed d =>
        let s2 := if r.status = 401 then clearTokenFromStorage s1 else s1
        (s2, header, { success := r.ok, data := some d, error := none, status := r.status })
    else
      (s1, header, { success := r.ok, data := some r.text, error := none, status := r.status })

/-- `saveTokenToStorage(token)`: writes the entry only for a non-empty string token. -/
def saveTokenToStorage (s : ApiService) (token : Token) : ApiService :=
  match token with
  | .str t => if t = "" then s else { s with storage := some t }
  | _ => s

/-- `setToken(token)`: stores the value in memory and calls `saveTokenToStorage`. -/
def setToken (s : ApiService) (token : Token) : ApiService :=
  saveTokenToStorage { s with token := token } token

/-- The `try` block of `fetchWithAuth` (lines 80-116), run when `fetch` has settled: the
state afterwards and the returned object. -/
def afterFetch (s : ApiService) (reply : FetchReply) : ApiService × FetchResult :=
  match reply with
  | .rejected m =>
    (s, { success := false, data := none,
          error := some (orElse m "Network request failed"), status := 0 })
  | .response r =>
    if (match r.contentType with
        | some ct => ct != "" && includes ct "application/json"
        | none => false) then
      match r.json with
      | .throws m =>
        (s, { success := false, data := none,
              error := some (orElse m "Network request failed"), status := 0 })
      | .parsed d =>
        (if r.status = 401 then clearTokenFromStorage s else s,
          { success := r.ok, data := some d, error := none, status := r.status })
    else
      (s, { success := r.ok, data := some r.text, error := none, status := r.status })

/-- `registerPushToken(pushToken)` up to the call of `fetch`: `none` when the guard of
lines 121-123 returns the failure object without a request, otherwise the `Authorization`
header of the request that is issued. -/
def registerPushToken (s : ApiService) (pushToken : Token) : Option (Option String) :=
  if s.token.truthy = false || pushToken.truthy = false then none
  else some (authorization (if s.token.truthy = false then loadTokenFromStorage s else s))

end ApiService

/-! # Unread count and badge (`src/src/services/EnhancedNotificationService.js`) -/

/-- Fields of the `EnhancedNotificationService` object (`notificationListeners` as pairs of
event type and callback number) followed by three logs: the number of
`notification:get_count` requests emitted, the calls of listener callbacks (callback number,
count) for `unread_count_changed`, and the arguments of `Notifications.setBadgeCountAsync`. -/
structure EnhancedNotificationService where
  isInitialized : Bool
  notificationListeners : List (String × Nat)
  unreadCount : Nat
  countQueries : Nat
  listenerCalls : List (Nat × Nat)
  badgeCalls : List Nat
deriving DecidableEq, Repr

namespace EnhancedNotificationService

/-- The `constructor()`, with empty logs. -/
def constructor : EnhancedNotificationService where
  isInitialized := false
  notificationListeners := []
  unreadCount := 0
  countQueries := 0
  listenerCalls := []
  badgeCalls := []

/-- The acknowledgement of a `notification:get_count` request: `success` and `count`
(`none` when the field is missing). -/
structure CountResponse where
  success : Bool
  count : Option Nat
deriving DecidableEq, Repr

/-- `updateAppBadge(count)`: asks the notification capability to show `count`. -/
def updateAppBadge (e : EnhancedNotificationService) (count : Nat) :
    EnhancedNotificationService :=
  { e with badgeCalls := e.badgeCalls ++ [count] }

/-- `notifyListeners('unread_count_changed', count)`: calls the listeners of that type. -/
def notifyUnreadCountChanged (e : EnhancedNotificationService) (count : Nat) :
    EnhancedNotificationService :=
  { e with listenerCalls := e.listenerCalls ++
      ((e.notificationListeners.filter (fun l => l.1 = "unread_count_changed")).map
        (fun l => (l.2, count))) }

/-- `updateUnreadCount()`: emits the count request when the manager holds a socket. -/
def updateUnreadCount (e : EnhancedNotificationService) (socketHeld : Bool) :
    EnhancedNotificationService :=
  if socketHeld then { e with countQueries := e.countQueries + 1 } else e

/-- The acknowledgement callback of lines 77-85; `none` is a `null`/`undefined` response. -/
def onCountResponse (e : EnhancedNotificationService) (response : Option CountResponse) :
    EnhancedNotificationService :=
  match response with
  | some r =>
    if r.success then
      let e1 := { e with unreadCount := r.count.getD 0 }
      updateAppBadge (notifyUnreadCountChanged e1 e1.unreadCount) e1.unreadCount
    else e
  | none => e

/-- The badge value that a response makes the client show, if any. -/
def badgeOf : Option CountResponse → Option Nat
  | some r => if r.success then some (r.count.getD 0) else none
  | none => none

end EnhancedNotificationService

/-! # Bridge utilities (`src/src/utils/webViewUtils.js`) -/

namespace WebViewUtils

/-- A JavaScript value as `JSON.parse` produces it, plus `undefined` for a missing
property.  The fields of an object have distinct names. -/
inductive Value where
  | undefined
  | null
  | bool (b : Bool)
  | num (n : Int)
  | str (s : String)
  | arr (items : List Value)
  | obj (fields : List (String × Value))

/-- JavaScript truthiness. -/
def Value.truthy : Value → Bool
  | .undefined => false
  | .null => false
  | .bool b => b
  | .num n => n != 0
  | .str s => s != ""
  | .arr _ => true
  | .obj _ => true

/-- The comparison `v === s` with a string literal. -/
def Value.is (v : Value) (s : String) : Bool :=
  match v with
  | .str t => t == s
  | _ => false

/-- Property access `v.name`: a `TypeError` on `undefined` and `null`, the field of an
object, and `undefined` when the object has no such field or `v` is a primitive or an array
(none of the names read by the bridge is a built-in property). -/
def Value.prop (v : Value) (name : String) : Except String Value :=
  match v with
  | .undefined => .error ("TypeError: " ++ name ++ " of undefined")
  | .null => .error ("TypeError: " ++ name ++ " of null")
  | .obj fields => .ok ((fields.lookup name).getD .undefined)
  | _ => .ok .undefined

/-- `parseWebViewMessage(event)`: `event` is the string `event.nativeEvent.data` (`none`
when it cannot be read) and `jsonParse` is the built-in `JSON.parse`, an error standing for
a thrown exception.  Every exception is caught and gives `null`. -/
def parseWebViewMessage (jsonParse : String → Except String Value) (event : Option String) :
    Value :=
  match event with
  | none => .null
  | some data =>
    match jsonParse data with
    | .ok v => v
    | .error _ => .null

/-- The prefix that the regular expression of line 314 matches, removed. -/
def stripHttp : List Char → Option (List Char)
  | 'h' :: 't' :: 't' :: 'p' :: ':' :: '/' :: '/' :: rest => some rest
  | _ => none

/-- `getWebSocketUrl(token, baseUrl)`. -/
def getWebSocketUrl (token : String) (baseUrl : String) : String :=
  let wsBaseUrl :=
    match stripHttp baseUrl.data with
    | some rest => "ws://" ++ String.mk rest
    | none => baseUrl
  wsBaseUrl ++ "?token=" ++ token

end WebViewUtils

/-! # Session coordinator (`src/App.js`) -/

/-- The part of the `App` component that the registration effect uses: the two token
states, the `tokenRegistered` ref and the `apiService` singleton, followed by the
registration requests awaiting their response (auth token, push token), the log of every
`POST /notifications/register-device` request issued (token of its `Authorization` header,
push token) and the log of `enhancedNotificationService.registerPushToken` calls. -/
structure App where
  expoPushToken : SocketService.Token
  authToken : SocketService.Token
  tokenRegistered : Bool
  api : ApiService
  inFlight : List (SocketService.Token × SocketService.Token)
  registerCalls : List (SocketService.Token × SocketService.Token)
  socketRegistrations : List SocketService.Token
deriving DecidableEq, Repr

namespace App

open SocketService (Token)
open WebViewUtils (Value parseWebViewMessage)

/-- The component when it mounts: both tokens are the empty string, nothing registered. -/
def initial : App where
  expoPushToken := .str ""
  authToken := .str ""
  tokenRegistered := false
  api := { token := .null, storage := none }
  inFlight := []
  registerCalls := []
  socketRegistrations := []

/-- `registerPushTokenWithServer(token, authToken)` up to its `await` (lines 135-139): the
guard, `apiService.setToken(authToken)` and the request of `apiService.registerPushToken`. -/
def registerPushTokenWithServer (a : App) (token authToken : Token) : App :=
  if authToken.truthy = false || token.truthy = false then a
  else
    let api1 := ApiService.setToken a.api authToken
    match ApiService.registerPushToken api1 token with
    | none => { a with api := api1 }
    | some _ =>
      { a with api := api1
               inFlight := a.inFlight ++ [(authToken, token)]
               registerCalls := a.registerCalls ++ [(api1.token, token)] }

/-- `registerTokenIfNeeded()` up to its `await` (lines 264-266), on the current state. -/
def registerTokenIfNeeded (a : App) : App :=
  if a.authToken.truthy && a.expoPushToken.truthy && !a.tokenRegistered then
    registerPushTokenWithServer a a.expoPushToken a.authToken
  else a

/-- The rest of `registerTokenIfNeeded` (lines 267-274), run when request number `i` of
`inFlight` receives `reply`: on success the flag is set and, when the enhanced service is
initialised, the push token is also registered through it (which emits only while the
manager holds a socket). -/
def registrationSettled (a : App) (i : Nat) (reply : ApiService.FetchReply)
    (enhancedInitialized socketHeld : Bool) : App :=
  match a.inFlight[i]? with
  | none => a
  | some (_, push) =>
    let a1 : App :=
      { a with api := (ApiService.afterFetch a.api reply).1, inFlight := a.inFlight.eraseIdx i }
    if (ApiService.afterFetch a.api reply).2.success then
      { a1 with tokenRegistered := true
                socketRegistrations :=
                  if enhancedInitialized && socketHeld then a1.socketRegistrations ++ [push]
                  else a1.socketRegistrations }
    else a1

/-- What happens to the registration state: the push token arrives, a `token` message of
the bridge arrives (`setAuthToken` and `apiService.setToken`), the registration effect is
evaluated, or a pending request settles. -/
inductive Step where
  | setExpoPushToken (token : Token)
  | tokenMessage (value : Token)
  | evaluate
  | settled (i : Nat) (reply : ApiService.FetchReply) (enhancedInitialized socketHeld : Bool)
deriving DecidableEq, Repr

/-- One step of the registration state. -/
def step (a : App) : Step → App
  | .setExpoPushToken t => { a with expoPushToken := t }
  | .tokenMessage v => { a with authToken := v, api := ApiService.setToken a.api v }
  | .evaluate => registerTokenIfNeeded a
  | .settled i reply e h => registrationSettled a i reply e h

/-- Runs a sequence of steps, oldest first. -/
def run (a : App) (steps : List Step) : App :=
  steps.foldl step a

/-- A successful JSON response to the registration request. -/
def okReply : ApiService.FetchReply :=
  .response { status := 200, ok := true, contentType := some "application/json",
              json := .parsed "registered", text := "" }

/-- The state changes and calls that `handleWebViewMessage` makes. -/
inductive BridgeEffect where
  | setAuthToken (value : Value)
  | apiSetToken (value : Value)
  | setThemeMode (mode : Value)
  | consoleWarn (data : Value)
  | setWebViewError (message : Value) (details : Value)

/-- `handleWebViewMessage(event)` (lines 323-344): the effects it makes, or the exception
that leaves the function (it has no `try` block of its own). -/
def handleWebViewMessage (jsonParse : String → Except String Value) (event : Option String) :
    Except String (List BridgeEffect) :=
  let data := parseWebViewMessage jsonParse event
  if data.truthy = false then .ok []
  else do
    let type ← data.prop "type"
    if type.is "token" then
      let value ← data.prop "value"
      pure [.setAuthToken value, .apiSetToken value]
    else if type.is "theme" then
      let mode ← data.prop "mode"
      if mode.truthy && (mode.is "light" || mode.is "dark") then pure [.setThemeMode mode]
      else pure []
    else if type.is "console.log" || type.is "console.info" then pure []
    else if type.is "console.error" || type.is "console.warn" then
      let d ← data.prop "data"
      pure [.consoleWarn d]
    else if type.is "login.error" || type.is "global.error" then
      let d ← data.prop "data"
      let e ← d.prop "error"
      let m ← d.prop "message"
      pure [.setWebViewError
        (if e.truthy then e else if m.truthy then m else .str "Unknown error") d]
    else pure []

/-- Every request issued carried two non-empty tokens, and every pending request was
issued. -/
def CallsOk (a : App) : Prop :=
  (∀ c ∈ a.registerCalls, c.1.truthy = true ∧ c.2.truthy = true)
    ∧ (∀ p ∈ a.inFlight, p ∈ a.registerCalls)

end App

namespace SocketService

/-! ### Frame lemmas -/

theorem handleConnectionError_status (s : SocketService) (m : String) :
    (handleConnectionError s m).connectionStatus = s.connectionStatus := by
  unfold handleConnectionError; split <;> rfl

theorem handleConnectionError_sockets (s : SocketService) (m : String) :
    (handleConnectionError s m).sockets = s.sockets := by
  unfold handleConnectionError; split <;> rfl

theorem handleConnectionError_socket (s : SocketService) (m : String) :
    (handleConnectionError s m).socket = s.socket := by
  unfold handleConnectionError; split <;> rfl

theorem handleConnectionError_token (s : SocketService) (m : String) :
    (handleConnectionError s m).token = s.token := by
  unfold handleConnectionError; split <;> rfl

theorem initialise_falsy (s : SocketService) (tok : Token) (cb : Callback)
    (h : tok.truthy = false) :
    initialise s tok cb =
      handleConnectionError
        { s with token := tok, onConnectionError := cb, connectionStatus := "connecting" }
        "SocketService: No token provided for connection" := by
  simp [initialise, connect, h]

theorem initialise_falsy_effect (s : SocketService) (tok : Token) (cb : Callback)
    (h : tok.truthy = false) :
    (initialise s tok cb).connectionStatus = "connecting"
      ∧ (initialise s tok cb).connectionStatus ≠ "error"
      ∧ (initialise s tok cb).sockets = s.sockets
      ∧ (initialise s tok cb).socket = s.socket := by
  rw [initialise_falsy s tok cb h, handleConnectionError_status, handleConnectionError_sockets,
    handleConnectionError_socket]
  refine ⟨rfl, ?_, rfl, rfl⟩
  show "connecting" ≠ "error"
  decide

theorem disconnect_status (s : SocketService) :
    (disconnect s).connectionStatus = "disconnected" := rfl

theorem disconnect_socket (s : SocketService) : (disconnect s).socket = none := by
  cases h : s.socket <;> simp [disconnect, h]

theorem connect_truthy (s : SocketService) (h : s.token.truthy = true) :
    connect s =
      { (if s.socket.isSome then disconnect s else s) with
        socket := some (if s.socket.isSome then disconnect s else s).sockets.length,
        sockets := (if s.socket.isSome then disconnect s else s).sockets
          ++ [io (if s.socket.isSome then disconnect s else s)] } := by
  simp [connect, h, setupEventListeners]

/-! ### One live socket -/

theorem map_modify_of_preserved {α β : Type} (g : α → β) (f : α → α)
    (h : ∀ a, g (f a) = g a) (i : Nat) (l : List α) :
    (List.modify f i l).map g = l.map g := by
  apply List.ext_getElem?
  intro j
  simp only [List.getElem?_map, List.getElem?_modify]
  cases l[j]? with
  | none => rfl
  | some a =>
    by_cases hij : i = j <;> simp [hij, h]

/-- The invariant only depends on the held reference and on the `closed` flags. -/
theorem OneLive.of_same_shape {s t : SocketService} (hs : OneLive s)
    (h1 : t.socket = s.socket)
    (h2 : t.sockets.map (fun c => c.closed) = s.sockets.map (fun c => c.closed)) :
    OneLive t := by
  have hlen : t.sockets.length = s.sockets.length := by
    simpa using congrArg List.length h2
  constructor
  · intro i c hi hc
    have h3 := congrArg (fun l => l[i]?) h2
    simp only [List.getElem?_map, hi, Option.map_some'] at h3
    cases hsi : s.sockets[i]? with
    | none => simp [hsi] at h3
    | some d =>
      simp only [hsi, Option.map_some', Option.some.injEq] at h3
      rw [h1]
      exact hs.1 i d hsi (by rw [← h3]; exact hc)
  · intro i hi
    rw [hlen]
    exact hs.2 i (by rw [← h1]; exact hi)

theorem handleConnectionError_oneLive {s : SocketService} (m : String) (hs : OneLive s) :
    OneLive (handleConnectionError s m) :=
  hs.of_same_shape (handleConnectionError_socket s m)
    (by rw [handleConnectionError_sockets])

theorem setFlags_oneLive {s : SocketService} (a b : Bool) (hs : OneLive s) :
    OneLive (setFlags s a b) := by
  unfold setFlags
  split
  · exact hs.of_same_shape rfl (by
      show List.map _ (List.modify _ _ _) = _
      apply map_modify_of_preserved
      intro _
      rfl)
  · exact hs

theorem sendMessage_oneLive {s : SocketService} (e : String) (d : List (String × String))
    (hs : OneLive s) : OneLive (sendMessage s e d) := by
  unfold sendMessage
  split
  · split
    · split
      · exact hs.of_same_shape rfl (by
      show List.map _ (List.modify _ _ _) = _
      apply map_modify_of_preserved
      intro _
      rfl)
      · exact hs
    · exact hs
  · exact hs

theorem setStatus_oneLive {s : SocketService} (st : String) (hs : OneLive s) :
    OneLive { s with connectionStatus := st } :=
  hs.of_same_shape rfl rfl

theorem getConnectionStatus_oneLive {s : SocketService} (hs : OneLive s) :
    OneLive (getConnectionStatus s).1 := by
  unfold getConnectionStatus
  dsimp only
  split
  · split
    · split
      · exact setStatus_oneLive _ hs
      · split
        · exact setStatus_oneLive _ hs
        · exact setStatus_oneLive _ hs
    · exact hs
  · exact hs

theorem disconnect_noLive {s : SocketService} (hs : OneLive s) : NoLive (disconnect s) := by
  intro j c hj
  cases hk : s.socket with
  | none =>
    simp only [disconnect, hk] at hj
    by_contra hc
    have := hs.1 j c hj (by simpa using hc)
    rw [hk] at this
    exact Option.noConfusion this
  | some k =>
    simp only [disconnect, hk, List.getElem?_modify] at hj
    cases hsj : s.sockets[j]? with
    | none => simp [hsj] at hj
    | some d =>
      by_cases hkj : k = j
      · simp only [hsj, hkj, if_true, Option.map_eq_map, Option.map_some',
          Option.some.injEq] at hj
        rw [← hj]
      · simp only [hsj, hkj, if_false, Option.map_eq_map, Option.map_some',
          Option.some.injEq] at hj
        by_contra hc
        have := hs.1 j d hsj (by rw [hj]; simpa using hc)
        rw [hk] at this
        exact hkj (Option.some.inj this)

theorem NoLive.oneLive {s : SocketService} (hs : NoLive s) (h : s.socket = none) :
    OneLive s := by
  constructor
  · intro i c hi hc
    rw [hs i c hi] at hc
    exact Bool.noConfusion hc
  · intro i hi
    rw [h] at hi
    exact Option.noConfusion hi

theorem disconnect_oneLive {s : SocketService} (hs : OneLive s) : OneLive (disconnect s) :=
  (disconnect_noLive hs).oneLive (disconnect_socket s)

/-- The state in which `connect` calls `io`: no socket is held and none is live. -/
theorem teardown_noLive {s : SocketService} (hs : OneLive s) :
    NoLive (if s.socket.isSome then disconnect s else s)
      ∧ (if s.socket.isSome then disconnect s else s).socket = none := by
  cases hk : s.socket with
  | some k => exact ⟨by simpa using disconnect_noLive hs, by simpa using disconnect_socket s⟩
  | none =>
    refine ⟨?_, by simpa using hk⟩
    intro i c hi
    simp only [Option.isSome_none, Bool.false_eq_true, if_false] at hi
    by_contra hc
    have := hs.1 i c hi (by simpa using hc)
    rw [hk] at this
    exact Option.noConfusion this

theorem connect_oneLive {s : SocketService} (hs : OneLive s) : OneLive (connect s) := by
  cases ht : s.token.truthy with
  | false =>
    have : connect s = handleConnectionError s
        "SocketService: No token provided for connection" := by
      simp [connect, ht]
    rw [this]
    exact handleConnectionError_oneLive _ hs
  | true =>
    rw [connect_truthy s ht]
    obtain ⟨h1, -⟩ := teardown_noLive hs
    generalize (if s.socket.isSome then disconnect s else s) = u at h1
    constructor
    · intro i c hi hc
      show some u.sockets.length = some i
      rcases Nat.lt_trichotomy i u.sockets.length with hlt | heq | hgt
      · have hi2 : u.sockets[i]? = some c := by
          rw [← hi]
          exact (List.getElem?_append_left hlt).symm
        rw [h1 i c hi2] at hc
        exact Bool.noConfusion hc
      · rw [heq]
      · have hnone : (u.sockets ++ [io u])[i]? = none := by
          apply List.getElem?_eq_none
          simp only [List.length_append, List.length_singleton]
          omega
        change (u.sockets ++ [io u])[i]? = some c at hi
        rw [hnone] at hi
        exact Option.noConfusion hi
    · intro i hi
      have : i = u.sockets.length := (Option.some.inj hi).symm
      show i < (u.sockets ++ [io u]).length
      simp only [List.length_append, List.length_singleton]
      omega

theorem initialise_oneLive {s : SocketService} (tok : Token) (cb : Callback) (hs : OneLive s) :
    OneLive (initialise s tok cb) :=
  connect_oneLive (hs.of_same_shape rfl rfl)

theorem handle_oneLive {s : SocketService} (e : Event) (hs : OneLive s) :
    OneLive (handle s e) := by
  cases e with
  | connect =>
    exact sendMessage_oneLive _ _ ((setFlags_oneLive true false hs).of_same_shape rfl rfl)
  | connectError m => exact handleConnectionError_oneLive _ (setStatus_oneLive _ hs)
  | disconnect r =>
    show OneLive (onDisconnect _ r)
    unfold onDisconnect
    dsimp only
    split
    · exact connect_oneLive (setStatus_oneLive _ (setFlags_oneLive false false hs))
    · exact setStatus_oneLive _ (setFlags_oneLive false false hs)
  | reconnectAttempt n => exact setStatus_oneLive _ hs
  | reconnectFailed => exact handleConnectionError_oneLive _ (setStatus_oneLive _ hs)
  | reconnect n => exact setStatus_oneLive _ hs
  | error m => exact handleConnectionError_oneLive _ hs
  | authError m => exact (handleConnectionError_oneLive _ hs).of_same_shape rfl rfl
  | other n => exact hs
  | connectErrorWithoutPayload => exact setStatus_oneLive _ hs
  | errorWithoutPayload => exact hs
  | authErrorWithoutPayload => exact hs

theorem step_oneLive {s : SocketService} (a : Action) (hs : OneLive s) :
    OneLive (step s a) := by
  cases a with
  | initialise t cb => exact initialise_oneLive t cb hs
  | connect => exact connect_oneLive hs
  | disconnect => exact disconnect_oneLive hs
  | getConnectionStatus => exact getConnectionStatus_oneLive hs
  | event e => exact handle_oneLive e hs
  | flags c g => exact setFlags_oneLive c g hs

theorem run_oneLive (acts : List Action) {s : SocketService} (hs : OneLive s) :
    OneLive (run s acts) := by
  induction acts generalizing s with
  | nil => exact hs
  | cons a rest ih => exact ih (step_oneLive a hs)

theorem constructor_oneLive : OneLive constructor := by
  constructor
  · intro i c hi
    simp [constructor] at hi
  · intro i hi
    simp [constructor] at hi

/-- A list in which every element satisfying `p` sits at one given position has at most one
element satisfying `p`. -/
theorem filter_length_le_one {α : Type} (p : α → Bool) (l : List α) (n k : Nat)
    (h : ∀ i c, l[i]? = some c → p c = true → n + i = k) :
    (l.filter p).length ≤ 1 := by
  induction l generalizing n with
  | nil => simp
  | cons a t ih =>
    have ht : ∀ i c, t[i]? = some c → p c = true → (n + 1) + i = k := by
      intro i c hi hc
      have := h (i + 1) c (by simpa using hi) hc
      omega
    cases hpa : p a with
    | false =>
      rw [List.filter_cons_of_neg (by simp [hpa])]
      exact ih (n + 1) ht
    | true =>
      have h0 : n + 0 = k := h 0 a (by simp) hpa
      have hnil : t.filter p = [] := by
        rw [List.filter_eq_nil_iff]
        intro c hc hpc
        obtain ⟨i, hi⟩ := List.getElem?_of_mem hc
        have := ht i c hi hpc
        omega
      rw [List.filter_cons_of_pos hpa, hnil]
      simp

theorem OneLive.liveCount_le {s : SocketService} (hs : OneLive s) : liveCount s ≤ 1 := by
  unfold liveCount
  apply filter_length_le_one _ _ 0 (s.socket.getD 0)
  intro i c hi hc
  have := hs.1 i c hi (by simpa using hc)
  simp [this]

theorem connect_live_after {s : SocketService} (hs : OneLive s) (ht : s.token.truthy = true) :
    liveCount (connect s) = 1 := by
  rw [connect_truthy s ht]
  obtain ⟨h1, -⟩ := teardown_noLive hs
  generalize (if s.socket.isSome then disconnect s else s) = u at h1
  show ((u.sockets ++ [io u]).filter (fun c => !c.closed)).length = 1
  have hnil : u.sockets.filter (fun c => !c.closed) = [] := by
    rw [List.filter_eq_nil_iff]
    intro c hc
    obtain ⟨i, hi⟩ := List.getElem?_of_mem hc
    simp [h1 i c hi]
  rw [List.filter_append, hnil]
  rfl

theorem connect_closes_held {s : SocketService} (hs : OneLive s) (ht : s.token.truthy = true)
    {i : Nat} (hi : s.socket = some i) :
    ((connect s).sockets[i]?).map (fun c => c.closed) = some true
      ∧ (connect s).socket = some s.sockets.length
      ∧ (connect s).sockets.length = s.sockets.length + 1 := by
  have hlt : i < s.sockets.length := hs.2 i hi
  rw [connect_truthy s ht]
  simp only [hi, Option.isSome_some, if_true]
  have hsock : (disconnect s).sockets
      = List.modify (fun c => { c with closed := true, connected := false }) i s.sockets := by
    simp [disconnect, hi]
  have hlen : (disconnect s).sockets.length = s.sockets.length := by
    rw [hsock, List.length_modify]
  refine ⟨?_, by rw [hlen], by simp [hlen]⟩
  show ((disconnect s).sockets ++ [io (disconnect s)])[i]?.map _ = _
  rw [List.getElem?_append_left (by rw [hlen]; exact hlt), hsock, List.getElem?_modify]
  obtain ⟨c, hc⟩ : ∃ c, s.sockets[i]? = some c := ⟨s.sockets[i], List.getElem?_eq_getElem hlt⟩
  simp [hc]

/-! ### The retry counter -/

theorem handleConnectionError_reconnectAttempts (s : SocketService) (m : String) :
    (handleConnectionError s m).reconnectAttempts = s.reconnectAttempts := by
  unfold handleConnectionError; split <;> rfl

theorem disconnect_reconnectAttempts (s : SocketService) :
    (disconnect s).reconnectAttempts = s.reconnectAttempts := by
  cases h : s.socket <;> simp [disconnect, h]

theorem connect_reconnectAttempts (s : SocketService) :
    (connect s).reconnectAttempts = s.reconnectAttempts := by
  cases ht : s.token.truthy with
  | false => simp [connect, ht, handleConnectionError_reconnectAttempts]
  | true =>
    rw [connect_truthy s ht]
    cases hk : s.socket <;> simp [disconnect_reconnectAttempts]

theorem setFlags_reconnectAttempts (s : SocketService) (a b : Bool) :
    (setFlags s a b).reconnectAttempts = s.reconnectAttempts := by
  unfold setFlags; split <;> rfl

theorem sendMessage_reconnectAttempts (s : SocketService) (e : String)
    (d : List (String × String)) :
    (sendMessage s e d).reconnectAttempts = s.reconnectAttempts := by
  unfold sendMessage
  split
  · split
    · split <;> rfl
    · rfl
  · rfl

theorem getConnectionStatus_reconnectAttempts (s : SocketService) :
    (getConnectionStatus s).1.reconnectAttempts = s.reconnectAttempts := by
  unfold getConnectionStatus
  dsimp only
  split
  · split
    · split
      · rfl
      · split <;> rfl
    · rfl
  · rfl

/-- No step makes the retry counter non-zero. -/
theorem step_reconnectAttempts (s : SocketService) (a : Action) (h : s.reconnectAttempts = 0) :
    (step s a).reconnectAttempts = 0 := by
  cases a with
  | initialise t cb =>
    show (connect _).reconnectAttempts = 0
    rw [connect_reconnectAttempts]; exact h
  | connect => show (connect s).reconnectAttempts = 0; rw [connect_reconnectAttempts]; exact h
  | disconnect =>
    show (disconnect s).reconnectAttempts = 0
    rw [disconnect_reconnectAttempts]; exact h
  | getConnectionStatus =>
    show (getConnectionStatus s).1.reconnectAttempts = 0
    rw [getConnectionStatus_reconnectAttempts]; exact h
  | flags c g =>
    show (setFlags s c g).reconnectAttempts = 0
    rw [setFlags_reconnectAttempts]; exact h
  | event e =>
    cases e with
    | connect =>
      show (sendMessage _ _ _).reconnectAttempts = 0
      rw [sendMessage_reconnectAttempts]
    | connectError m =>
      show (handleConnectionError _ _).reconnectAttempts = 0
      rw [handleConnectionError_reconnectAttempts]; exact h
    | disconnect r =>
      show (onDisconnect _ r).reconnectAttempts = 0
      unfold onDisconnect
      dsimp only
      split
      · rw [connect_reconnectAttempts]
        show (setFlags s false false).reconnectAttempts = 0
        rw [setFlags_reconnectAttempts]; exact h
      · show (setFlags s false false).reconnectAttempts = 0
        rw [setFlags_reconnectAttempts]; exact h
    | reconnectAttempt n => exact h
    | reconnectFailed =>
      show (handleConnectionError _ _).reconnectAttempts = 0
      rw [handleConnectionError_reconnectAttempts]; exact h
    | reconnect n => exact h
    | error m =>
      show (handleConnectionError _ _).reconnectAttempts = 0
      rw [handleConnectionError_reconnectAttempts]; exact h
    | authError m =>
      show (handleConnectionError _ _).reconnectAttempts = 0
      rw [handleConnectionError_reconnectAttempts]; exact h
    | other n => exact h
    | connectErrorWithoutPayload => exact h
    | errorWithoutPayload => exact h
    | authErrorWithoutPayload => exact h

theorem run_reconnectAttempts (acts : List Action) (s : SocketService)
    (h : s.reconnectAttempts = 0) : (run s acts).reconnectAttempts = 0 := by
  induction acts generalizing s with
  | nil => exact h
  | cons a rest ih => exact ih _ (step_reconnectAttempts s a h)

/-! ### Socket creation -/

theorem disconnect_sockets_length (s : SocketService) :
    (disconnect s).sockets.length = s.sockets.length := by
  cases h : s.socket <;> simp [disconnect, h]

theorem setFlags_sockets_length (s : SocketService) (a b : Bool) :
    (setFlags s a b).sockets.length = s.sockets.length := by
  cases h : s.socket <;> simp [setFlags, h]

theorem sendMessage_sockets_length (s : SocketService) (e : String)
    (d : List (String × String)) :
    (sendMessage s e d).sockets.length = s.sockets.length := by
  unfold sendMessage
  split
  · split
    · split
      · simp
      · rfl
    · rfl
  · rfl

theorem getConnectionStatus_sockets (s : SocketService) :
    (getConnectionStatus s).1.sockets = s.sockets := by
  unfold getConnectionStatus
  dsimp only
  split
  · split
    · split
      · rfl
      · split <;> rfl
    · rfl
  · rfl

/-- A step that is not one of the three socket-creating ones keeps the number of created
sockets. -/
theorem step_sockets_length (s : SocketService) (a : Action) (h : createsSocket a = false) :
    (step s a).sockets.length = s.sockets.length := by
  cases a with
  | initialise t cb => simp [createsSocket] at h
  | connect => simp [createsSocket] at h
  | disconnect => exact disconnect_sockets_length s
  | getConnectionStatus =>
    show (getConnectionStatus s).1.sockets.length = _
    rw [getConnectionStatus_sockets]
  | flags c g => exact setFlags_sockets_length s c g
  | event e =>
    cases e with
    | connect =>
      show (sendMessage _ _ _).sockets.length = _
      rw [sendMessage_sockets_length]
      exact setFlags_sockets_length s true false
    | connectError m =>
      show (handleConnectionError _ _).sockets.length = _
      rw [handleConnectionError_sockets]
    | disconnect r =>
      have hr : ¬ r = "io server disconnect" := by simpa [createsSocket] using h
      show (onDisconnect _ r).sockets.length = _
      simp only [onDisconnect, hr, if_false]
      exact setFlags_sockets_length s false false
    | reconnectAttempt n => rfl
    | reconnectFailed =>
      show (handleConnectionError _ _).sockets.length = _
      rw [handleConnectionError_sockets]
    | reconnect n => rfl
    | error m =>
      show (handleConnectionError _ _).sockets.length = _
      rw [handleConnectionError_sockets]
    | authError m =>
      show (handleConnectionError _ _).sockets.length = _
      rw [handleConnectionError_sockets]
    | other n => rfl
    | connectErrorWithoutPayload => rfl
    | errorWithoutPayload => rfl
    | authErrorWithoutPayload => rfl

theorem run_sockets_length (acts : List Action) (s : SocketService)
    (h : ∀ a ∈ acts, createsSocket a = false) :
    (run s acts).sockets.length = s.sockets.length := by
  induction acts generalizing s with
  | nil => rfl
  | cons a rest ih =>
    show (run (step s a) rest).sockets.length = _
    rw [ih (step s a) (fun b hb => h b (List.mem_cons_of_mem a hb)),
      step_sockets_length s a (h a (List.mem_cons_self a rest))]

/-! ### Error reports -/

theorem run_append (s : SocketService) (xs ys : List Action) :
    run s (xs ++ ys) = run (run s xs) ys := by
  simp [run, List.foldl_append]

theorem handleConnectionError_fn (s : SocketService) (m : String) (id : Nat)
    (h : s.onConnectionError = .fn id) :
    handleConnectionError s m = { s with errorCalls := s.errorCalls ++ [(id, m)] } := by
  simp [handleConnectionError, h]

/-- Each `connect_error` delivered to a manager with a callback appends one report. -/
theorem run_connectErrors (msgs : List (Option String)) (s : SocketService) (id : Nat)
    (h : s.onConnectionError = .fn id) :
    (run s (msgs.map (fun m => Action.event (.connectError m)))).errorCalls
        = s.errorCalls ++ msgs.map (fun m => (id, connectErrorMessage m))
      ∧ (run s (msgs.map (fun m => Action.event (.connectError m)))).onConnectionError
        = .fn id := by
  induction msgs generalizing s with
  | nil => simp [run, h]
  | cons m rest ih =>
    have hstep : step s (.event (.connectError m))
        = { s with connectionStatus := "error",
                   errorCalls := s.errorCalls ++ [(id, connectErrorMessage m)] } := by
      exact handleConnectionError_fn _ _ id h
    have := ih (step s (.event (.connectError m))) (by rw [hstep]; exact h)
    simp only [List.map_cons, run, List.foldl_cons] at this ⊢
    rw [this.1, this.2, hstep]
    simp

theorem onReconnectFailed_fn (s : SocketService) (id : Nat)
    (h : s.onConnectionError = .fn id) :
    onReconnectFailed s
      = { s with connectionStatus := "error",
                 errorCalls := s.errorCalls ++ [(id, reconnectFailedMessage)] } :=
  handleConnectionError_fn _ _ id h

theorem connectErrorMessage_ne (m : Option String) :
    connectErrorMessage m ≠ reconnectFailedMessage := by
  intro h
  have h1 : (connectErrorMessage m).data.head? = some 'B' := by
    unfold connectErrorMessage
    rw [String.data_append]
    rfl
  have h2 : reconnectFailedMessage.data.head? = some 'S' := rfl
  rw [h, h2] at h1
  exact absurd h1 (by decide)

/-! ### The socket that `connect` creates -/

theorem disconnect_token (s : SocketService) : (disconnect s).token = s.token := by
  cases h : s.socket <;> simp [disconnect, h]

theorem disconnect_maxReconnectAttempts (s : SocketService) :
    (disconnect s).maxReconnectAttempts = s.maxReconnectAttempts := by
  cases h : s.socket <;> simp [disconnect, h]

theorem setFlags_token (s : SocketService) (a b : Bool) : (setFlags s a b).token = s.token := by
  unfold setFlags; split <;> rfl

theorem setFlags_socket (s : SocketService) (a b : Bool) :
    (setFlags s a b).socket = s.socket := by
  unfold setFlags; split <;> rfl

/-- With a usable token `connect` adds exactly one socket, holds it, and that socket carries
the manager's token and the reconnection options of lines 41-46. -/
theorem connect_held (s : SocketService) (ht : s.token.truthy = true) :
    ∃ c, heldSocket (connect s) = some c
      ∧ c.auth = s.token
      ∧ c.reconnection = true
      ∧ c.reconnectionAttempts = s.maxReconnectAttempts
      ∧ c.reconnectionDelay = 1000
      ∧ c.reconnectionDelayMax = 5000
      ∧ c.closed = false
      ∧ (connect s).sockets.length = s.sockets.length + 1
      ∧ (connect s).socket = some s.sockets.length := by
  rw [connect_truthy s ht]
  refine ⟨io (if s.socket.isSome then disconnect s else s), ?_, ?_, rfl, ?_, rfl, rfl, rfl, ?_, ?_⟩
  · simp [heldSocket]
  · cases h : s.socket <;> simp [io, disconnect_token]
  · cases h : s.socket <;> simp [io, disconnect_maxReconnectAttempts]
  · cases h : s.socket <;> simp [disconnect_sockets_length]
  · cases h : s.socket <;> simp [disconnect_sockets_length]

theorem connect_falsy (s : SocketService) (ht : s.token.truthy = false) :
    (connect s).sockets = s.sockets ∧ (connect s).socket = s.socket := by
  have : connect s = handleConnectionError s
      "SocketService: No token provided for connection" := by
    simp [connect, ht]
  rw [this, handleConnectionError_sockets, handleConnectionError_socket]
  exact ⟨rfl, rfl⟩

theorem connect_status (s : SocketService) (h : s.connectionStatus = "disconnected") :
    (connect s).connectionStatus = "disconnected" := by
  cases ht : s.token.truthy with
  | false =>
    have : connect s = handleConnectionError s
        "SocketService: No token provided for connection" := by
      simp [connect, ht]
    rw [this, handleConnectionError_status, h]
  | true =>
    rw [connect_truthy s ht]
    cases hk : s.socket <;> simp [disconnect_status, h]

theorem NoLive.liveCount_eq {s : SocketService} (hs : NoLive s) : liveCount s = 0 := by
  unfold liveCount
  have hnil : s.sockets.filter (fun c => !c.closed) = [] := by
    rw [List.filter_eq_nil_iff]
    intro c hc
    obtain ⟨i, hi⟩ := List.getElem?_of_mem hc
    simp [hs i c hi]
  rw [hnil]
  rfl

theorem disconnect_idempotent (s : SocketService) : disconnect (disconnect s) = disconnect s := by
  cases h : s.socket <;> simp [disconnect, h]

/-! ### The reconnection cap -/

theorem handleConnectionError_maxReconnectAttempts (s : SocketService) (m : String) :
    (handleConnectionError s m).maxReconnectAttempts = s.maxReconnectAttempts := by
  unfold handleConnectionError; split <;> rfl

theorem connect_maxReconnectAttempts (s : SocketService) :
    (connect s).maxReconnectAttempts = s.maxReconnectAttempts := by
  cases ht : s.token.truthy with
  | false => simp [connect, ht, handleConnectionError_maxReconnectAttempts]
  | true =>
    rw [connect_truthy s ht]
    cases hk : s.socket <;> simp [disconnect_maxReconnectAttempts]

theorem setFlags_maxReconnectAttempts (s : SocketService) (a b : Bool) :
    (setFlags s a b).maxReconnectAttempts = s.maxReconnectAttempts := by
  unfold setFlags; split <;> rfl

theorem sendMessage_maxReconnectAttempts (s : SocketService) (e : String)
    (d : List (String × String)) :
    (sendMessage s e d).maxReconnectAttempts = s.maxReconnectAttempts := by
  unfold sendMessage
  split
  · split
    · split <;> rfl
    · rfl
  · rfl

theorem getConnectionStatus_maxReconnectAttempts (s : SocketService) :
    (getConnectionStatus s).1.maxReconnectAttempts = s.maxReconnectAttempts := by
  unfold getConnectionStatus
  dsimp only
  split
  · split
    · split
      · rfl
      · split <;> rfl
    · rfl
  · rfl

/-- No step writes `maxReconnectAttempts`. -/
theorem step_maxReconnectAttempts (s : SocketService) (a : Action) :
    (step s a).maxReconnectAttempts = s.maxReconnectAttempts := by
  cases a with
  | initialise t cb => exact connect_maxReconnectAttempts _
  | connect => exact connect_maxReconnectAttempts s
  | disconnect => exact disconnect_maxReconnectAttempts s
  | getConnectionStatus => exact getConnectionStatus_maxReconnectAttempts s
  | flags c g => exact setFlags_maxReconnectAttempts s c g
  | event e =>
    cases e with
    | connect =>
      show (sendMessage _ _ _).maxReconnectAttempts = _
      rw [sendMessage_maxReconnectAttempts]
      exact setFlags_maxReconnectAttempts s true false
    | connectError m => exact handleConnectionError_maxReconnectAttempts _ _
    | disconnect r =>
      show (onDisconnect _ r).maxReconnectAttempts = _
      unfold onDisconnect
      dsimp only
      split
      · rw [connect_maxReconnectAttempts]
        exact setFlags_maxReconnectAttempts s false false
      · exact setFlags_maxReconnectAttempts s false false
    | reconnectAttempt n => rfl
    | reconnectFailed => exact handleConnectionError_maxReconnectAttempts _ _
    | reconnect n => rfl
    | error m => exact handleConnectionError_maxReconnectAttempts _ _
    | authError m => exact handleConnectionError_maxReconnectAttempts _ _
    | other n => rfl
    | connectErrorWithoutPayload => rfl
    | errorWithoutPayload => rfl
    | authErrorWithoutPayload => rfl

theorem run_maxReconnectAttempts (acts : List Action) (s : SocketService) :
    (run s acts).maxReconnectAttempts = s.maxReconnectAttempts := by
  induction acts generalizing s with
  | nil => rfl
  | cons a rest ih =>
    show (run (step s a) rest).maxReconnectAttempts = _
    rw [ih, step_maxReconnectAttempts]

/-! ### Presentations -/

theorem applyPriority_frame (data : NotificationData) (c : NotificationContent) :
    (applyPriority data c).title = c.title
      ∧ (applyPriority data c).body = c.body
      ∧ (applyPriority data c).categoryIdentifier = c.categoryIdentifier
      ∧ (applyPriority data c).priority = c.priority
      ∧ (applyPriority data c).badge = c.badge := by
  unfold applyPriority
  split_ifs <;> exact ⟨rfl, rfl, rfl, rfl, rfl⟩

theorem customise_frame (data : NotificationData) (c : NotificationContent) :
    (customise data c).sound = c.sound
      ∧ (customise data c).vibrate = c.vibrate
      ∧ (customise data c).badge = c.badge := by
  refine ⟨?_, ?_, ?_⟩
  · simp only [customise, apply_ite NotificationContent.sound, ite_self]
  · simp only [customise, apply_ite NotificationContent.vibrate, ite_self]
  · simp only [customise, apply_ite NotificationContent.badge, ite_self]

/-- The `default` case of the `switch`. -/
theorem customise_unrecognised (data : NotificationData) (c : NotificationContent)
    (h : ∀ t ∈ recognisedTypes, data.type ≠ some t) :
    customise data c
      = { c with title := orElse data.title "🔔 Yeni Bildirim",
                 categoryIdentifier := some "default" } := by
  have h1 := h "chat:new_message" (by simp [recognisedTypes])
  have h2 := h "doctor_assignment" (by simp [recognisedTypes])
  have h3 := h "examination_created" (by simp [recognisedTypes])
  have h4 := h "appointment_created" (by simp [recognisedTypes])
  have h5 := h "product_low_stock" (by simp [recognisedTypes])
  have h6 := h "prescription_created" (by simp [recognisedTypes])
  have h7 := h "daily_report" (by simp [recognisedTypes])
  have h8 := h "pending_prescriptions" (by simp [recognisedTypes])
  have h9 := h "incomplete_examinations" (by simp [recognisedTypes])
  have h10 := h "system" (by simp [recognisedTypes])
  unfold customise
  rw [if_neg h1, if_neg h2, if_neg h3, if_neg h4, if_neg h5, if_neg h6, if_neg h7, if_neg h8,
    if_neg h9, if_neg h10]

theorem orElse_ne_empty (x : Option String) (fallback : String) (h : fallback ≠ "") :
    orElse x fallback ≠ "" := by
  unfold orElse
  split
  · split
    · exact h
    · assumption
  · exact h

theorem orElse_some (m fallback : String) (h : m ≠ "") : orElse (some m) fallback = m := by
  simp [orElse, h]

theorem append_ne_empty (a b : String) (h : 0 < b.length) : a ++ b ≠ "" := by
  intro he
  have := congrArg String.length he
  rw [String.length_append] at this
  have h0 : "".length = 0 := rfl
  omega

/-! ### The stored state and the stored callback -/

theorem setFlags_status (s : SocketService) (a b : Bool) :
    (setFlags s a b).connectionStatus = s.connectionStatus := by
  unfold setFlags; split <;> rfl

theorem sendMessage_status (s : SocketService) (e : String) (d : List (String × String)) :
    (sendMessage s e d).connectionStatus = s.connectionStatus := by
  unfold sendMessage
  split
  · split
    · split <;> rfl
    · rfl
  · rfl

theorem connect_status_cases (s : SocketService) :
    (connect s).connectionStatus = s.connectionStatus
      ∨ (connect s).connectionStatus = "disconnected" := by
  cases ht : s.token.truthy with
  | false =>
    left
    have : connect s = handleConnectionError s
        "SocketService: No token provided for connection" := by
      simp [connect, ht]
    rw [this, handleConnectionError_status]
  | true =>
    rw [connect_truthy s ht]
    cases hk : s.socket with
    | none => left; simp
    | some i => right; simp [disconnect_status]

theorem getConnectionStatus_validStatus (s : SocketService)
    (h : ValidStatus s.connectionStatus) :
    ValidStatus (getConnectionStatus s).1.connectionStatus := by
  unfold getConnectionStatus
  dsimp only
  split
  · split
    · split
      · exact Or.inr (Or.inr (Or.inl rfl))
      · split
        · exact Or.inr (Or.inl rfl)
        · exact Or.inl rfl
    · exact h
  · exact h

theorem connect_validStatus (s : SocketService) (h : ValidStatus s.connectionStatus) :
    ValidStatus (connect s).connectionStatus := by
  rcases connect_status_cases s with h1 | h1
  · rw [h1]; exact h
  · rw [h1]; exact Or.inl rfl

/-- Every step leads from one of the four states to one of the four states. -/
theorem step_validStatus (s : SocketService) (a : Action)
    (h : ValidStatus s.connectionStatus) : ValidStatus (step s a).connectionStatus := by
  cases a with
  | initialise t cb => exact connect_validStatus _ (Or.inr (Or.inl rfl))
  | connect => exact connect_validStatus s h
  | disconnect => exact Or.inl rfl
  | getConnectionStatus => exact getConnectionStatus_validStatus s h
  | flags c g =>
    show ValidStatus (setFlags s c g).connectionStatus
    rw [setFlags_status]; exact h
  | event e =>
    cases e with
    | connect =>
      show ValidStatus (sendMessage _ _ _).connectionStatus
      rw [sendMessage_status]
      exact Or.inr (Or.inr (Or.inl rfl))
    | connectError m =>
      show ValidStatus (handleConnectionError _ _).connectionStatus
      rw [handleConnectionError_status]
      exact Or.inr (Or.inr (Or.inr rfl))
    | disconnect r =>
      show ValidStatus (onDisconnect _ r).connectionStatus
      unfold onDisconnect
      dsimp only
      split
      · exact connect_validStatus _ (Or.inl rfl)
      · exact Or.inl rfl
    | reconnectAttempt n => exact Or.inr (Or.inl rfl)
    | reconnectFailed =>
      show ValidStatus (handleConnectionError _ _).connectionStatus
      rw [handleConnectionError_status]
      exact Or.inr (Or.inr (Or.inr rfl))
    | reconnect n => exact Or.inr (Or.inr (Or.inl rfl))
    | error m =>
      show ValidStatus (handleConnectionError _ _).connectionStatus
      rw [handleConnectionError_status]; exact h
    | authError m =>
      show ValidStatus (handleConnectionError _ _).connectionStatus
      rw [handleConnectionError_status]; exact h
    | other n => exact h
    | connectErrorWithoutPayload => exact Or.inr (Or.inr (Or.inr rfl))
    | errorWithoutPayload => exact h
    | authErrorWithoutPayload => exact h

theorem run_validStatus (acts : List Action) (s : SocketService)
    (h : ValidStatus s.connectionStatus) : ValidStatus (run s acts).connectionStatus := by
  induction acts generalizing s with
  | nil => exact h
  | cons a rest ih => exact ih _ (step_validStatus s a h)

theorem handleConnectionError_report (s : SocketService) (m : String) :
    (handleConnectionError s m).onConnectionError = s.onConnectionError
      ∧ (handleConnectionError s m).errorCalls
          = s.errorCalls ++ callbackCalls s.onConnectionError m := by
  unfold handleConnectionError callbackCalls
  split
  · rename_i h
    exact ⟨rfl, by rw [h]⟩
  · rename_i h
    refine ⟨rfl, ?_⟩
    cases hc : s.onConnectionError with
    | fn id => exact absurd hc (h id)
    | null => simp
    | notFunction => simp

theorem disconnect_callback (s : SocketService) :
    (disconnect s).onConnectionError = s.onConnectionError := by
  cases h : s.socket <;> simp [disconnect, h]

theorem connect_callback (s : SocketService) :
    (connect s).onConnectionError = s.onConnectionError := by
  cases ht : s.token.truthy with
  | false =>
    have : connect s = handleConnectionError s
        "SocketService: No token provided for connection" := by
      simp [connect, ht]
    rw [this, (handleConnectionError_report s _).1]
  | true =>
    rw [connect_truthy s ht]
    cases hk : s.socket <;> simp [disconnect_callback]

theorem setFlags_callback (s : SocketService) (a b : Bool) :
    (setFlags s a b).onConnectionError = s.onConnectionError := by
  unfold setFlags; split <;> rfl

theorem sendMessage_callback (s : SocketService) (e : String) (d : List (String × String)) :
    (sendMessage s e d).onConnectionError = s.onConnectionError := by
  unfold sendMessage
  split
  · split
    · split <;> rfl
    · rfl
  · rfl

theorem getConnectionStatus_callback (s : SocketService) :
    (getConnectionStatus s).1.onConnectionError = s.onConnectionError := by
  unfold getConnectionStatus
  dsimp only
  split
  · split
    · split
      · rfl
      · split <;> rfl
    · rfl
  · rfl

/-- Only `initialize` writes the stored callback. -/
theorem step_callback (s : SocketService) (a : Action) (h : isInitialise a = false) :
    (step s a).onConnectionError = s.onConnectionError := by
  cases a with
  | initialise t cb => simp [isInitialise] at h
  | connect => exact connect_callback s
  | disconnect => exact disconnect_callback s
  | getConnectionStatus => exact getConnectionStatus_callback s
  | flags c g => exact setFlags_callback s c g
  | event e =>
    cases e with
    | connect =>
      show (sendMessage _ _ _).onConnectionError = _
      rw [sendMessage_callback]
      exact setFlags_callback s true false
    | connectError m => exact (handleConnectionError_report _ _).1
    | disconnect r =>
      show (onDisconnect _ r).onConnectionError = _
      unfold onDisconnect
      dsimp only
      split
      · rw [connect_callback]
        exact setFlags_callback s false false
      · exact setFlags_callback s false false
    | reconnectAttempt n => rfl
    | reconnectFailed => exact (handleConnectionError_report _ _).1
    | reconnect n => rfl
    | error m => exact (handleConnectionError_report _ _).1
    | authError m => exact (handleConnectionError_report _ _).1
    | other n => rfl
    | connectErrorWithoutPayload => rfl
    | errorWithoutPayload => rfl
    | authErrorWithoutPayload => rfl

theorem run_callback (acts : List Action) (s : SocketService)
    (h : ∀ a ∈ acts, isInitialise a = false) :
    (run s acts).onConnectionError = s.onConnectionError := by
  induction acts generalizing s with
  | nil => rfl
  | cons a rest ih =>
    show (run (step s a) rest).onConnectionError = _
    rw [ih (step s a) (fun b hb => h b (List.mem_cons_of_mem a hb)),
      step_callback s a (h a (List.mem_cons_self a rest))]

/-- The handler of an error event reports its message exactly once. -/
theorem handle_report (s : SocketService) (e : Event) (msg : String)
    (h : reportedMessage e = some msg) :
    (handle s e).errorCalls = s.errorCalls ++ callbackCalls s.onConnectionError msg := by
  cases e with
  | connectError m =>
    have hm : connectErrorMessage m = msg := by simpa [reportedMessage] using h
    rw [← hm]
    exact (handleConnectionError_report { s with connectionStatus := "error" } _).2
  | reconnectFailed =>
    have hm : reconnectFailedMessage = msg := by simpa [reportedMessage] using h
    rw [← hm]
    exact (handleConnectionError_report { s with connectionStatus := "error" } _).2
  | error m =>
    have hm : "Socket hatası: " ++ orElse m "Bilinmeyen hata" = msg := by
      simpa [reportedMessage] using h
    rw [← hm]
    exact (handleConnectionError_report s _).2
  | authError m =>
    have hm : "Yetkilendirme hatası: " ++ orElse m "Token geçersiz" = msg := by
      simpa [reportedMessage] using h
    rw [← hm]
    exact (handleConnectionError_report s _).2
  | connect => simp [reportedMessage] at h
  | disconnect r => simp [reportedMessage] at h
  | reconnectAttempt n => simp [reportedMessage] at h
  | reconnect n => simp [reportedMessage] at h
  | other n => simp [reportedMessage] at h
  | connectErrorWithoutPayload => simp [reportedMessage] at h
  | errorWithoutPayload => simp [reportedMessage] at h
  | authErrorWithoutPayload => simp [reportedMessage] at h

/-- The sound and vibration of a presentation, by the event's priority. -/
theorem notificationContent_sound_vibrate (data : NotificationData) :
    ((data.priority = some "urgent" ∨ data.priority = some "high") →
        (notificationContent data).sound = .file alertSound
          ∧ (notificationContent data).vibrate = some strongVibration)
      ∧ (data.priority = some "low" →
        (notificationContent data).sound = .off
          ∧ (notificationContent data).vibrate = some [0, 100])
      ∧ (data.priority ≠ some "urgent" → data.priority ≠ some "high" →
          data.priority ≠ some "low" →
        (notificationContent data).sound = .file alertSound
          ∧ (notificationContent data).vibrate = none) := by
  obtain ⟨hs, hv, -⟩ := customise_frame data (baseContent data)
  refine ⟨?_, ?_, ?_⟩
  · intro h
    unfold notificationContent applyPriority
    rw [if_pos h]
    exact ⟨rfl, rfl⟩
  · intro h
    have hn : ¬ (data.priority = some "urgent" ∨ data.priority = some "high") := by
      rw [h]; decide
    unfold notificationContent applyPriority
    rw [if_neg hn, if_pos h]
    exact ⟨rfl, rfl⟩
  · intro h1 h2 h3
    have hn : ¬ (data.priority = some "urgent" ∨ data.priority = some "high") := by
      rintro (h | h)
      · exact h1 h
      · exact h2 h
    unfold notificationContent applyPriority
    rw [if_neg hn, if_neg h3, hs, hv]
    exact ⟨rfl, rfl⟩

theorem followsGiveUp_createsSocket (a : Action) (h : followsGiveUp a = true) :
    createsSocket a = false := by
  cases a with
  | initialise t cb => simp [followsGiveUp] at h
  | connect => simp [followsGiveUp] at h
  | disconnect => rfl
  | getConnectionStatus => rfl
  | flags c g => rfl
  | event e =>
    cases e with
    | disconnect r =>
      have hr : ¬ r = "io server disconnect" := by simpa [followsGiveUp] using h
      simp [createsSocket, hr]
    | connect => rfl
    | connectError m => rfl
    | reconnectAttempt n => rfl
    | reconnectFailed => rfl
    | reconnect n => rfl
    | error m => rfl
    | authError m => rfl
    | other n => rfl
    | connectErrorWithoutPayload => rfl
    | errorWithoutPayload => rfl
    | authErrorWithoutPayload => rfl

theorem setFlags_errorCalls (s : SocketService) (a b : Bool) :
    (setFlags s a b).errorCalls = s.errorCalls := by
  unfold setFlags; split <;> rfl

/-! ### Claims -/

/-- C1: after `initialize` with an absent token (`null`, `undefined` or the empty string) the
stored connection state is `'connecting'`, not `'error'`; no socket is created and the held
socket, if any, is kept. -/
theorem initialise_absent_token_leaves_connecting (s : SocketService) (cb : Callback) :
    ((initialise s .null cb).connectionStatus = "connecting"
        ∧ (initialise s .null cb).connectionStatus ≠ "error"
        ∧ (initialise s .null cb).sockets = s.sockets
        ∧ (initialise s .null cb).socket = s.socket)
    ∧ ((initialise s .undefined cb).connectionStatus = "connecting"
        ∧ (initialise s .undefined cb).connectionStatus ≠ "error"
        ∧ (initialise s .undefined cb).sockets = s.sockets
        ∧ (initialise s .undefined cb).socket = s.socket)
    ∧ ((initialise s (.str "") cb).connectionStatus = "connecting"
        ∧ (initialise s (.str "") cb).connectionStatus ≠ "error"
        ∧ (initialise s (.str "") cb).sockets = s.sockets
        ∧ (initialise s (.str "") cb).socket = s.socket) :=
  ⟨initialise_falsy_effect s _ cb rfl, initialise_falsy_effect s _ cb rfl,
    initialise_falsy_effect s _ cb (by decide)⟩

/-- C2: for a non-empty token the state stored when `initialize` returns is `'connecting'`
only if no socket was held; if one was held, its teardown inside `connect` overwrites the
state with `'disconnected'`. -/
theorem initialise_status_after_teardown (s : SocketService) (tok : Token) (cb : Callback)
    (h : tok.truthy = true) :
    (initialise s tok cb).connectionStatus
      = if s.socket.isSome then "disconnected" else "connecting" := by
  unfold initialise
  rw [connect_truthy _ h]
  cases hs : s.socket <;> simp [disconnect_status]

/-- Witness for C2: re-initialising a manager that holds a socket stores `'disconnected'`. -/
theorem initialise_status_after_teardown_witness :
    (Token.str "tok2").truthy = true
      ∧ connectedOnce.socket.isSome = true
      ∧ (initialise connectedOnce (.str "tok2") (.fn 0)).connectionStatus = "disconnected"
      ∧ (initialise connectedOnce (.str "tok2") (.fn 0)).connectionStatus ≠ "connecting" := by
  have h := initialise_status_after_teardown connectedOnce (.str "tok2") (.fn 0) (by decide)
  have hs : connectedOnce.socket.isSome = true := by decide
  rw [hs] at h
  refine ⟨by decide, hs, ?_, ?_⟩
  · simpa using h
  · rw [h]; decide

/-- C3: in every state reached from the constructor by any sequence of method calls and
transport events at most one created socket is not torn down; and when `connect` runs with a
usable token while a socket is held, that socket is torn down, exactly one socket is added
and it becomes the held, only live one. -/
theorem at_most_one_live_socket (acts : List Action) :
    liveCount (run constructor acts) ≤ 1
      ∧ (∀ i : Nat, (run constructor acts).socket = some i →
          (run constructor acts).token.truthy = true →
          ((connect (run constructor acts)).sockets[i]?).map (fun c => c.closed) = some true
            ∧ (connect (run constructor acts)).socket = some (run constructor acts).sockets.length
            ∧ (connect (run constructor acts)).sockets.length
                = (run constructor acts).sockets.length + 1
            ∧ liveCount (connect (run constructor acts)) = 1) := by
  have hs : OneLive (run constructor acts) := run_oneLive acts constructor_oneLive
  refine ⟨hs.liveCount_le, ?_⟩
  intro i hi ht
  obtain ⟨h1, h2, h3⟩ := connect_closes_held hs ht hi
  exact ⟨h1, h2, h3, connect_live_after hs ht⟩

/-- Witness for C3: a second `connect()` after `initialize("tok")`. -/
theorem at_most_one_live_socket_witness :
    (run constructor [.initialise (.str "tok") .null]).socket = some 0
      ∧ (run constructor [.initialise (.str "tok") .null]).token.truthy = true
      ∧ ((connect (run constructor [.initialise (.str "tok") .null])).sockets[0]?).map
          (fun c => c.closed) = some true
      ∧ liveCount (connect (run constructor [.initialise (.str "tok") .null])) = 1 :=
  ⟨by decide, by decide,
    ((at_most_one_live_socket [.initialise (.str "tok") .null]).2 0 (by decide) (by decide)).1,
    ((at_most_one_live_socket [.initialise (.str "tok") .null]).2 0
      (by decide) (by decide)).2.2.2⟩

/-- C4: after `initialize("tok")` and then `initialize(null)` the manager's token is absent
while it still holds the socket created for `"tok"`, which was never torn down. -/
theorem absent_token_with_held_socket :
    (run constructor [.initialise (.str "tok") .null, .initialise .null .null]).token.truthy = false
      ∧ (run constructor [.initialise (.str "tok") .null, .initialise .null .null]).socket = some 0
      ∧ (heldSocket (run constructor [.initialise (.str "tok") .null, .initialise .null .null])).map
          (fun c => (c.closed, c.auth)) = some (false, Token.str "tok") := by
  decide

/-- C5: the `connect` handler stores `reconnectAttempts = 0` and the state `'connected'`,
whatever the state before, also when it is run through the delivery of the event. -/
theorem onConnect_resets (s : SocketService) :
    (onConnect s).reconnectAttempts = 0
      ∧ (onConnect s).connectionStatus = "connected"
      ∧ (step s (.event .connect)).reconnectAttempts = 0
      ∧ (step s (.event .connect)).connectionStatus = "connected" := by
  have key : ∀ t : SocketService, (onConnect t).reconnectAttempts = 0
      ∧ (onConnect t).connectionStatus = "connected" := by
    intro t
    unfold onConnect sendMessage
    split
    · split
      · split <;> exact ⟨rfl, rfl⟩
      · exact ⟨rfl, rfl⟩
    · exact ⟨rfl, rfl⟩
  exact ⟨(key s).1, (key s).2, (key _).1, (key _).2⟩

/-- C6 as stated fails: after `initialize` and one `connect_error` the counter is 0, not 1. -/
theorem reconnectAttempts_not_counted :
    ¬ (∀ N : Nat, 0 < N → N < 5 →
        (run constructor (.initialise (.str "tok") (.fn 0)
          :: List.replicate N (.event (.connectError (some "timeout"))))).reconnectAttempts = N) := by
  intro h
  have h1 := h 1 (by decide) (by decide)
  revert h1
  decide

/-- C6, amended: for every N with 0 < N < 5, after `initialize` followed by N consecutive
connect failures (`connect_error` or `reconnect_attempt` events) the manager's
`reconnectAttempts` is 0, hence different from N: no handler increments it. -/
theorem reconnectAttempts_zero_after_failures (tok : Token) (cb : Callback) (N : Nat)
    (fails : List Event) (hpos : 0 < N) (_hcap : N < 5) (_hlen : fails.length = N)
    (_hfail : ∀ e ∈ fails, isConnectFailure e = true) :
    (run constructor (.initialise tok cb :: fails.map .event)).reconnectAttempts = 0
      ∧ (run constructor (.initialise tok cb :: fails.map .event)).reconnectAttempts ≠ N := by
  have h0 := run_reconnectAttempts (.initialise tok cb :: fails.map .event) constructor rfl
  exact ⟨h0, by rw [h0]; omega⟩

/-- Witness for C6, amended: three failures after `initialize("tok")`. -/
theorem reconnectAttempts_zero_after_failures_witness :
    (run constructor (.initialise (.str "tok") (.fn 0) ::
      [Event.connectError (some "timeout"), Event.reconnectAttempt 1,
        Event.connectError (some "timeout")].map .event)).reconnectAttempts = 0 :=
  (reconnectAttempts_zero_after_failures (.str "tok") (.fn 0) 3
    [.connectError (some "timeout"), .reconnectAttempt 1, .connectError (some "timeout")]
    (by decide) (by decide) rfl (by decide)).1

/-- C7: the `reconnect_failed` handler stores `'error'` and creates no socket; afterwards,
whatever the coordinator and the transport do before the next `initialize` (`disconnect()`
calls, status reads, flag changes and every event that a transport which has given up can
deliver), no socket is created; the next `initialize` with a non-empty token creates
one. -/
theorem reconnect_failed_creates_nothing (s : SocketService) (rest : List Action)
    (tok : Token) (cb : Callback) (h : ∀ a ∈ rest, followsGiveUp a = true) :
    (handle s .reconnectFailed).connectionStatus = "error"
      ∧ (handle s .reconnectFailed).sockets = s.sockets
      ∧ (handle s .reconnectFailed).socket = s.socket
      ∧ (run (handle s .reconnectFailed) rest).sockets.length = s.sockets.length
      ∧ (tok.truthy = true →
          (initialise (run (handle s .reconnectFailed) rest) tok cb).sockets.length
            = s.sockets.length + 1) := by
  have hlen : (run (handle s .reconnectFailed) rest).sockets.length = s.sockets.length := by
    rw [run_sockets_length rest _ (fun a ha => followsGiveUp_createsSocket a (h a ha))]
    show (handleConnectionError _ _).sockets.length = _
    rw [handleConnectionError_sockets]
  refine ⟨?_, ?_, ?_, hlen, ?_⟩
  · show (handleConnectionError _ _).connectionStatus = _
    rw [handleConnectionError_status]
  · show (handleConnectionError _ _).sockets = _
    rw [handleConnectionError_sockets]
  · show (handleConnectionError _ _).socket = _
    rw [handleConnectionError_socket]
  · intro ht
    obtain ⟨c, -, -, -, -, -, -, -, h8, -⟩ :=
      connect_held
        { run (handle s .reconnectFailed) rest with
          token := tok, onConnectionError := cb, connectionStatus := "connecting" } ht
    show (connect _).sockets.length = _
    rw [h8]
    show (run (handle s .reconnectFailed) rest).sockets.length + 1 = _
    rw [hlen]

/-- Witness for C7: after `reconnect_failed`, further failures, a plain disconnect, a status
read and a `disconnect()` call create nothing; `initialize("tok2")` then creates one
socket. -/
theorem reconnect_failed_creates_nothing_witness :
    (handle connectedOnce .reconnectFailed).connectionStatus = "error"
      ∧ (run (handle connectedOnce .reconnectFailed)
          [.event (.connectError none), .event (.disconnect "transport close"),
            .event (.reconnectAttempt 1), .getConnectionStatus, .disconnect]).sockets.length
        = connectedOnce.sockets.length
      ∧ (initialise (run (handle connectedOnce .reconnectFailed)
          [.event (.connectError none), .event (.disconnect "transport close"),
            .event (.reconnectAttempt 1), .getConnectionStatus, .disconnect])
          (.str "tok2") .null).sockets.length = connectedOnce.sockets.length + 1 :=
  ⟨(reconnect_failed_creates_nothing connectedOnce [] (.str "tok2") .null (by decide)).1,
    (reconnect_failed_creates_nothing connectedOnce
      [.event (.connectError none), .event (.disconnect "transport close"),
        .event (.reconnectAttempt 1), .getConnectionStatus, .disconnect]
      (.str "tok2") .null (by decide)).2.2.2.1,
    (reconnect_failed_creates_nothing connectedOnce
      [.event (.connectError none), .event (.disconnect "transport close"),
        .event (.reconnectAttempt 1), .getConnectionStatus, .disconnect]
      (.str "tok2") .null (by decide)).2.2.2.2 (by decide)⟩

/-- C8 as stated fails: in the run `initialize`, five `connect_error` events,
`reconnect_failed` the error callback is invoked six times, not once. -/
theorem error_callback_called_six_times :
    (run constructor (.initialise (.str "tok") (.fn 0)
        :: List.replicate 5 (.event (.connectError (some "timeout")))
        ++ [.event .reconnectFailed])).connectionStatus = "error"
      ∧ (run constructor (.initialise (.str "tok") (.fn 0)
        :: List.replicate 5 (.event (.connectError (some "timeout")))
        ++ [.event .reconnectFailed])).errorCalls.length = 6
      ∧ (run constructor (.initialise (.str "tok") (.fn 0)
        :: List.replicate 5 (.event (.connectError (some "timeout")))
        ++ [.event .reconnectFailed])).errorCalls.length ≠ 1 := by
  decide

/-- C8, amended: in a run where `initialize` (non-empty token, callback given) is followed by
five `connect_error` events and then `reconnect_failed`, the state ends in `'error'`, the
callback receives one connect-error message per failed attempt and then the fatal
`reconnect_failed` message: six calls, of which exactly one, the last, carries the fatal
message. -/
theorem fatal_message_delivered_once (tok : Token) (id : Nat) (msgs : List (Option String))
    (ht : tok.truthy = true) (h5 : msgs.length = 5) :
    (run constructor (.initialise tok (.fn id)
        :: msgs.map (fun m => Action.event (.connectError m))
        ++ [.event .reconnectFailed])).connectionStatus = "error"
      ∧ (run constructor (.initialise tok (.fn id)
        :: msgs.map (fun m => Action.event (.connectError m))
        ++ [.event .reconnectFailed])).errorCalls
          = msgs.map (fun m => (id, connectErrorMessage m)) ++ [(id, reconnectFailedMessage)]
      ∧ (run constructor (.initialise tok (.fn id)
        :: msgs.map (fun m => Action.event (.connectError m))
        ++ [.event .reconnectFailed])).errorCalls.length = 6
      ∧ ((run constructor (.initialise tok (.fn id)
        :: msgs.map (fun m => Action.event (.connectError m))
        ++ [.event .reconnectFailed])).errorCalls.filter
          (fun c => c.2 = reconnectFailedMessage)).length = 1 := by
  have hinit : (initialise constructor tok (.fn id)).errorCalls = []
      ∧ (initialise constructor tok (.fn id)).onConnectionError = .fn id := by
    unfold initialise
    rw [connect_truthy _ ht]
    exact ⟨rfl, rfl⟩
  obtain ⟨he, hcb⟩ := run_connectErrors msgs (initialise constructor tok (.fn id)) id hinit.2
  rw [hinit.1, List.nil_append] at he
  have hrun : run constructor (.initialise tok (.fn id)
        :: msgs.map (fun m => Action.event (.connectError m)) ++ [.event .reconnectFailed])
      = onReconnectFailed (run (initialise constructor tok (.fn id))
          (msgs.map (fun m => Action.event (.connectError m)))) := by
    rw [run_append]
    rfl
  rw [hrun, onReconnectFailed_fn _ id hcb]
  refine ⟨rfl, ?_, ?_, ?_⟩
  · show _ ++ _ = _
    rw [he]
  · show List.length (_ ++ _) = 6
    rw [he]
    simp [h5]
  · show List.length (List.filter _ (_ ++ _)) = 1
    rw [he, List.filter_append]
    have hnil : (msgs.map (fun m => (id, connectErrorMessage m))).filter
        (fun c => decide (c.2 = reconnectFailedMessage)) = [] := by
      rw [List.filter_eq_nil_iff]
      intro c hc
      obtain ⟨m, -, rfl⟩ := List.mem_map.1 hc
      simpa using connectErrorMessage_ne m
    rw [hnil]
    simp

/-- Witness for C8, amended: five timeouts after `initialize("tok", cb)`. -/
theorem fatal_message_delivered_once_witness :
    (run constructor (.initialise (.str "tok") (.fn 0)
        :: (List.replicate 5 (some "timeout")).map (fun m => Action.event (.connectError m))
        ++ [.event .reconnectFailed])).errorCalls.length = 6
      ∧ ((run constructor (.initialise (.str "tok") (.fn 0)
        :: (List.replicate 5 (some "timeout")).map (fun m => Action.event (.connectError m))
        ++ [.event .reconnectFailed])).errorCalls.filter
          (fun c => c.2 = reconnectFailedMessage)).length = 1 :=
  ⟨(fatal_message_delivered_once (.str "tok") 0 (List.replicate 5 (some "timeout"))
      (by decide) (by decide)).2.2.1,
    (fatal_message_delivered_once (.str "tok") 0 (List.replicate 5 (some "timeout"))
      (by decide) (by decide)).2.2.2⟩

/-- C9: the `auth_error` handler leaves the stored connection state as it was (it does not
store `'error'`) and creates no socket; on a connected manager the state stays `'connected'`. -/
theorem onAuthError_keeps_status (s : SocketService) (message : Option String) :
    (onAuthError s message).connectionStatus = s.connectionStatus
      ∧ (onAuthError s message).sockets = s.sockets
      ∧ (step connectedOnce (.event (.authError none))).connectionStatus = "connected" := by
  refine ⟨?_, ?_, by decide⟩
  · show (handleConnectionError s _).connectionStatus = _
    exact handleConnectionError_status _ _
  · show (handleConnectionError s _).sockets = _
    exact handleConnectionError_sockets _ _

/-- C10: after `auth_error` the manager still holds the rejected token, and a following
server-initiated disconnect creates a new socket authenticated with that same token. -/
theorem auth_error_token_reused :
    (run connectedOnce [.event (.authError none)]).token = Token.str "tok"
      ∧ (run connectedOnce
          [.event (.authError none), .event (.disconnect "io server disconnect")]).sockets.length = 2
      ∧ (heldSocket (run connectedOnce
          [.event (.authError none), .event (.disconnect "io server disconnect")])).map
            (fun c => (c.closed, c.auth)) = some (false, Token.str "tok") := by
  decide

/-- C12 as stated fails: a manager whose token is absent but which still holds a socket
(after `initialize("tok")` and `initialize(null)`) handles a server-initiated disconnect
without creating any socket. -/
theorem server_disconnect_without_token :
    (run constructor [.initialise (.str "tok") .null, .initialise .null .null]).sockets.length = 1
      ∧ (run constructor [.initialise (.str "tok") .null, .initialise .null .null,
          .event (.disconnect "io server disconnect")]).sockets.length = 1
      ∧ (run constructor [.initialise (.str "tok") .null, .initialise .null .null,
          .event (.disconnect "io server disconnect")]).socket = some 0 := by
  decide

/-- C12, amended: handling a `disconnect` event always stores `'disconnected'`; a new socket
is created (one more socket, held, authenticated with the manager's token, and in a state
reached from the constructor the only live one) exactly when the reason is
`'io server disconnect'` and the manager's token is non-empty; with that reason and an
absent token the missing-token error is reported (one call of a function callback), no
socket is created and the held reference is kept; for every other reason the handler only
stores the state. -/
theorem disconnect_event_effect (s : SocketService) (acts : List Action) (reason : String) :
    (handle s (.disconnect reason)).connectionStatus = "disconnected"
      ∧ (reason = "io server disconnect" → s.token.truthy = true →
          (handle s (.disconnect reason)).sockets.length = s.sockets.length + 1
            ∧ (handle s (.disconnect reason)).socket = some s.sockets.length
            ∧ (heldSocket (handle s (.disconnect reason))).map (fun c => (c.auth, c.closed))
                = some (s.token, false))
      ∧ (reason = "io server disconnect" → (run constructor acts).token.truthy = true →
          liveCount (handle (run constructor acts) (.disconnect reason)) = 1)
      ∧ (reason = "io server disconnect" → s.token.truthy = false →
          (handle s (.disconnect reason)).sockets.length = s.sockets.length
            ∧ (handle s (.disconnect reason)).socket = s.socket
            ∧ (handle s (.disconnect reason)).errorCalls
                = s.errorCalls ++ callbackCalls s.onConnectionError
                    "SocketService: No token provided for connection")
      ∧ (reason ≠ "io server disconnect" →
          onDisconnect s reason = { s with connectionStatus := "disconnected" }
            ∧ (handle s (.disconnect reason)).sockets.length = s.sockets.length
            ∧ (handle s (.disconnect reason)).socket = s.socket
            ∧ (handle s (.disconnect reason)).errorCalls = s.errorCalls) := by
  refine ⟨?_, ?_, ?_, ?_, ?_⟩
  · show (onDisconnect _ reason).connectionStatus = _
    unfold onDisconnect
    dsimp only
    split
    · exact connect_status _ rfl
    · rfl
  · intro hr ht
    have hc : handle s (.disconnect reason)
        = connect { setFlags s false false with connectionStatus := "disconnected" } := by
      show onDisconnect _ reason = _
      simp [onDisconnect, hr]
    obtain ⟨c, h1, h2, -, -, -, -, h7, h8, h9⟩ :=
      connect_held { setFlags s false false with connectionStatus := "disconnected" }
        (by show (setFlags s false false).token.truthy = true; rw [setFlags_token]; exact ht)
    rw [hc, h8, h9, h1]
    refine ⟨?_, ?_, ?_⟩
    · show (setFlags s false false).sockets.length + 1 = _
      rw [setFlags_sockets_length]
    · show some (setFlags s false false).sockets.length = _
      rw [setFlags_sockets_length]
    · show some (c.auth, c.closed) = _
      rw [h2, h7]
      show some ((setFlags s false false).token, false) = _
      rw [setFlags_token]
  · intro hr ht
    have hc : handle (run constructor acts) (.disconnect reason)
        = connect { setFlags (run constructor acts) false false with
            connectionStatus := "disconnected" } := by
      show onDisconnect _ reason = _
      simp [onDisconnect, hr]
    rw [hc]
    apply connect_live_after
    · exact setStatus_oneLive _ (setFlags_oneLive false false
        (run_oneLive acts constructor_oneLive))
    · show (setFlags (run constructor acts) false false).token.truthy = true
      rw [setFlags_token]; exact ht
  · intro hr ht
    have hc : handle s (.disconnect reason)
        = connect { setFlags s false false with connectionStatus := "disconnected" } := by
      show onDisconnect _ reason = _
      simp [onDisconnect, hr]
    have ht2 : ({ setFlags s false false with
        connectionStatus := "disconnected" } : SocketService).token.truthy = false := by
      show (setFlags s false false).token.truthy = false
      rw [setFlags_token]; exact ht
    obtain ⟨h1, h2⟩ :=
      connect_falsy { setFlags s false false with connectionStatus := "disconnected" } ht2
    have h3 : connect { setFlags s false false with connectionStatus := "disconnected" }
        = handleConnectionError
            { setFlags s false false with connectionStatus := "disconnected" }
            "SocketService: No token provided for connection" := by
      simp [connect, ht2]
    refine ⟨?_, ?_, ?_⟩
    · rw [hc, h1]
      exact setFlags_sockets_length s false false
    · rw [hc, h2]
      exact setFlags_socket s false false
    · rw [hc, h3, (handleConnectionError_report _ _).2]
      show (setFlags s false false).errorCalls
          ++ callbackCalls (setFlags s false false).onConnectionError _ = _
      rw [setFlags_errorCalls, setFlags_callback]
  · intro hr
    refine ⟨by simp [onDisconnect, hr], ?_, ?_, ?_⟩
    · show (onDisconnect _ reason).sockets.length = _
      simp only [onDisconnect, hr, if_false]
      exact setFlags_sockets_length s false false
    · show (onDisconnect _ reason).socket = _
      simp only [onDisconnect, hr, if_false]
      exact setFlags_socket s false false
    · show (onDisconnect _ reason).errorCalls = _
      simp only [onDisconnect, hr, if_false]
      exact setFlags_errorCalls s false false

/-- Witness for C12, amended: a connected manager handles a server-initiated disconnect and
a transport close; a manager left without token but with a held socket (after
`initialize("tok", cb)` and `initialize(null, cb)`) handles a server-initiated disconnect
by reporting the missing token once more and creating nothing. -/
theorem disconnect_event_effect_witness :
    connectedOnce.token.truthy = true
      ∧ (handle connectedOnce (.disconnect "io server disconnect")).sockets.length
          = connectedOnce.sockets.length + 1
      ∧ liveCount (handle (run constructor [.initialise (.str "tok") (.fn 0), .event .connect])
          (.disconnect "io server disconnect")) = 1
      ∧ (handle connectedOnce (.disconnect "transport close")).sockets.length
          = connectedOnce.sockets.length
      ∧ (run constructor
          [.initialise (.str "tok") (.fn 0), .initialise .null (.fn 0)]).token.truthy = false
      ∧ (handle (run constructor [.initialise (.str "tok") (.fn 0), .initialise .null (.fn 0)])
          (.disconnect "io server disconnect")).sockets.length = 1
      ∧ (handle (run constructor [.initialise (.str "tok") (.fn 0), .initialise .null (.fn 0)])
          (.disconnect "io server disconnect")).errorCalls
          = [(0, "SocketService: No token provided for connection"),
              (0, "SocketService: No token provided for connection")] :=
  ⟨by decide,
    ((disconnect_event_effect connectedOnce [] "io server disconnect").2.1 rfl (by decide)).1,
    (disconnect_event_effect connectedOnce [.initialise (.str "tok") (.fn 0), .event .connect]
      "io server disconnect").2.2.1 rfl (by decide),
    ((disconnect_event_effect connectedOnce [] "transport close").2.2.2.2 (by decide)).2.1,
    by decide,
    ((disconnect_event_effect
      (run constructor [.initialise (.str "tok") (.fn 0), .initialise .null (.fn 0)]) []
      "io server disconnect").2.2.2.1 rfl (by decide)).1,
    ((disconnect_event_effect
      (run constructor [.initialise (.str "tok") (.fn 0), .initialise .null (.fn 0)]) []
      "io server disconnect").2.2.2.1 rfl (by decide)).2.2⟩

/-- C13 as stated fails: `disconnect()` on a manager whose retry counter is 3 leaves the
counter at 3 (it holds no socket and stores `'disconnected'`, as claimed). -/
theorem disconnect_keeps_retry_counter :
    (disconnect { constructor with reconnectAttempts := 3 }).reconnectAttempts = 3
      ∧ (disconnect { constructor with reconnectAttempts := 3 }).socket = none
      ∧ (disconnect { constructor with reconnectAttempts := 3 }).connectionStatus
          = "disconnected" := by
  decide

/-- C13, amended: after `disconnect()` the manager holds no socket and the state is
`'disconnected'`, a second `disconnect()` changes nothing, and the retry counter is left
as it was: `disconnect` clears nothing; in every state reached from the constructor no
socket is left live and the counter is 0 because no code ever makes it non-zero. -/
theorem disconnect_idempotent_complete (s : SocketService) (acts : List Action) :
    (disconnect s).socket = none
      ∧ (disconnect s).connectionStatus = "disconnected"
      ∧ disconnect (disconnect s) = disconnect s
      ∧ (disconnect s).reconnectAttempts = s.reconnectAttempts
      ∧ (disconnect (run constructor acts)).reconnectAttempts = 0
      ∧ liveCount (disconnect (run constructor acts)) = 0 := by
  refine ⟨disconnect_socket s, rfl, disconnect_idempotent s, disconnect_reconnectAttempts s,
    ?_, ?_⟩
  · rw [disconnect_reconnectAttempts]
    exact run_reconnectAttempts acts constructor rfl
  · exact (disconnect_noLive (run_oneLive acts constructor_oneLive)).liveCount_eq

/-- C14: in the run `initialize("tok123")`, `connect` event, the stored state is
`'disconnected'`, then `'connecting'`, then `'connected'`; exactly one socket exists and
exactly one message, `client_ready` with payload `platform: 'mobile'`, was emitted on it;
`getConnectionStatus` then returns `'connected'`. -/
theorem handshake_scenario :
    constructor.connectionStatus = "disconnected"
      ∧ (run constructor [.initialise (.str "tok123") .null]).connectionStatus = "connecting"
      ∧ (run constructor
          [.initialise (.str "tok123") .null, .event .connect]).connectionStatus = "connected"
      ∧ (run constructor [.initialise (.str "tok123") .null, .event .connect]).sockets.map
          (fun c => c.emitted) = [[("client_ready", [("platform", "mobile")])]]
      ∧ (getConnectionStatus (run constructor
          [.initialise (.str "tok123") .null, .event .connect])).2 = "connected" := by
  decide

/-- C15 as stated fails: after `reconnect_failed` the stored state is `'error'`, but
`getConnectionStatus` returns `'disconnected'` and overwrites the stored state with it. -/
theorem status_read_overwrites_error :
    (run constructor
        [.initialise (.str "tok") (.fn 0), .event .reconnectFailed]).connectionStatus = "error"
      ∧ (getConnectionStatus (run constructor
        [.initialise (.str "tok") (.fn 0), .event .reconnectFailed])).2 = "disconnected"
      ∧ (getConnectionStatus (run constructor
        [.initialise (.str "tok") (.fn 0), .event .reconnectFailed])).1.connectionStatus
          = "disconnected" := by
  decide

/-- C15, amended: `getConnectionStatus` returns the stored state and changes nothing when no
socket is held; when a socket is held it stores the status derived from the socket's flags
(`'connected'`, else `'connecting'`, else `'disconnected'`, never `'error'`) and returns
that. -/
theorem getConnectionStatus_effect (s : SocketService) :
    (heldSocket s = none → getConnectionStatus s = (s, s.connectionStatus))
      ∧ (∀ c, heldSocket s = some c →
          getConnectionStatus s = ({ s with connectionStatus := flagStatus c }, flagStatus c)
            ∧ flagStatus c ≠ "error") := by
  have key : getConnectionStatus s =
      match heldSocket s with
      | none => (s, s.connectionStatus)
      | some c => ({ s with connectionStatus := flagStatus c }, flagStatus c) := by
    unfold getConnectionStatus heldSocket flagStatus
    cases s.socket with
    | none => rfl
    | some i =>
      dsimp only
      cases s.sockets[i]? with
      | none => rfl
      | some c =>
        rcases c with ⟨_, _, _, _, _, _, _, _, _, _, cd, cg, _, _⟩
        cases cd <;> cases cg <;> rfl
  constructor
  · intro h
    rw [key, h]
  · intro c h
    rw [key, h]
    refine ⟨rfl, ?_⟩
    unfold flagStatus
    cases c.connected <;> cases c.connecting <;> decide

/-- Witness for C15, amended: the status read after `reconnect_failed`, and on a fresh
manager. -/
theorem getConnectionStatus_effect_witness :
    getConnectionStatus constructor = (constructor, "disconnected")
      ∧ (getConnectionStatus (run constructor
          [.initialise (.str "tok") (.fn 0), .event .reconnectFailed])).2 = "disconnected" :=
  ⟨(getConnectionStatus_effect constructor).1 (by decide),
    congrArg Prod.snd (((getConnectionStatus_effect (run constructor
      [.initialise (.str "tok") (.fn 0), .event .reconnectFailed])).2
        (io (initialise constructor (.str "tok") (.fn 0))) (by decide)).1)⟩

/-- C16: in every state reached from the constructor, the socket created by
`initialize(token)` for a non-empty token, and by `connect()` when the manager's token is
non-empty, is held and configured with that token as `auth.token`, `reconnection: true`,
`reconnectionAttempts` equal to `maxReconnectAttempts` = 5, `reconnectionDelay` 1000 and
`reconnectionDelayMax` 5000. -/
theorem created_socket_options (acts : List Action) (tok : Token) (cb : Callback) :
    (run constructor acts).maxReconnectAttempts = 5
      ∧ (tok.truthy = true →
          ∃ c, heldSocket (initialise (run constructor acts) tok cb) = some c
            ∧ c.auth = tok ∧ c.reconnection = true
            ∧ c.reconnectionAttempts = 5
            ∧ c.reconnectionDelay = 1000 ∧ c.reconnectionDelayMax = 5000
            ∧ c.reconnectionDelay ≤ c.reconnectionDelayMax)
      ∧ ((run constructor acts).token.truthy = true →
          ∃ c, heldSocket (connect (run constructor acts)) = some c
            ∧ c.auth = (run constructor acts).token ∧ c.reconnection = true
            ∧ c.reconnectionAttempts = 5
            ∧ c.reconnectionDelay = 1000 ∧ c.reconnectionDelayMax = 5000
            ∧ c.reconnectionDelay ≤ c.reconnectionDelayMax) := by
  have hmax : (run constructor acts).maxReconnectAttempts = 5 :=
    run_maxReconnectAttempts acts constructor
  refine ⟨hmax, ?_, ?_⟩
  · intro ht
    obtain ⟨c, h1, h2, h3, h4, h5, h6, -⟩ :=
      connect_held
        { run constructor acts with
          token := tok, onConnectionError := cb, connectionStatus := "connecting" } ht
    exact ⟨c, h1, h2, h3, by rw [h4]; exact hmax, h5, h6, by rw [h5, h6]; decide⟩
  · intro ht
    obtain ⟨c, h1, h2, h3, h4, h5, h6, -⟩ := connect_held (run constructor acts) ht
    exact ⟨c, h1, h2, h3, by rw [h4]; exact hmax, h5, h6, by rw [h5, h6]; decide⟩

/-- Witness for C16: `initialize("tok2")` on a connected manager. -/
theorem created_socket_options_witness :
    (Token.str "tok2").truthy = true
      ∧ ∃ c, heldSocket (initialise (run constructor
          [.initialise (.str "tok") (.fn 0), .event .connect]) (.str "tok2") .null) = some c
        ∧ c.auth = .str "tok2" ∧ c.reconnection = true ∧ c.reconnectionAttempts = 5
        ∧ c.reconnectionDelay = 1000 ∧ c.reconnectionDelayMax = 5000
        ∧ c.reconnectionDelay ≤ c.reconnectionDelayMax :=
  ⟨by decide,
    (created_socket_options [.initialise (.str "tok") (.fn 0), .event .connect]
      (.str "tok2") .null).2.1 (by decide)⟩

/-- C17: for an event whose type is none of the types with a case of their own (a missing
type included) `showNotification` returns a boolean (the outcome of the scheduling call,
nothing is thrown) and submits the fallback presentation: category `'default'`, the event's
title when it has a non-empty one and `'🔔 Yeni Bildirim'` otherwise, and as body the
event's `body`, else its `content`, else `'Yeni bir bildiriminiz var'`. -/
theorem unrecognised_type_fallback (data : NotificationData) (scheduled : Bool)
    (h : ∀ t ∈ recognisedTypes, data.type ≠ some t) :
    (showNotification data scheduled).2 = scheduled
      ∧ (showNotification data scheduled).1.categoryIdentifier = some "default"
      ∧ (showNotification data scheduled).1.title = orElse data.title "🔔 Yeni Bildirim"
      ∧ (∀ t, data.title = some t → t ≠ "" → (showNotification data scheduled).1.title = t)
      ∧ (showNotification data scheduled).1.body
          = orElse data.body (orElse data.content "Yeni bir bildiriminiz var") := by
  have hc := customise_unrecognised data (baseContent data) h
  obtain ⟨ht, hb, hcat, -, -⟩ := applyPriority_frame data (customise data (baseContent data))
  have htitle : (showNotification data scheduled).1.title
      = orElse data.title "🔔 Yeni Bildirim" := by
    show (applyPriority data (customise data (baseContent data))).title = _
    rw [ht, hc]
  refine ⟨rfl, ?_, htitle, ?_, ?_⟩
  · show (applyPriority data (customise data (baseContent data))).categoryIdentifier = _
    rw [hcat, hc]
  · intro t h1 h2
    rw [htitle, h1, orElse_some t _ h2]
  · show (applyPriority data (customise data (baseContent data))).body = _
    rw [hb, hc]
    rfl

/-- Witness for C17: an event of the unknown type `'promo'` without title but with
`content`, and an event without type but with a title. -/
theorem unrecognised_type_fallback_witness :
    (showNotification
        { type := some "promo", title := none, body := none, content := some "Kampanya",
          priority := none, sender_name := none, message := .absent, category := none }
        true).1.categoryIdentifier = some "default"
      ∧ (showNotification
        { type := none, title := some "Duyuru", body := none, content := none,
          priority := none, sender_name := none, message := .absent, category := none }
        true).1.title = "Duyuru" :=
  ⟨(unrecognised_type_fallback
      { type := some "promo", title := none, body := none, content := some "Kampanya",
        priority := none, sender_name := none, message := .absent, category := none }
      true (by decide)).2.1,
    (unrecognised_type_fallback
      { type := none, title := some "Duyuru", body := none, content := none,
        priority := none, sender_name := none, message := .absent, category := none }
      true (by decide)).2.2.2.1 "Duyuru" rfl (by decide)⟩

/-- C18: for every `notification:doctor_assignment` event, with or without payload, every
presentation that the handler submits through `showNotification` has a title containing
`'Hekim Ataması'`, priority `'high'`, category `'medical'`, the alert sound and vibration
`[0, 250, 250, 250]`, and as body the payload's non-empty `message` and otherwise
`'<patientName> - <petName> için hekim olarak atandınız'`; an event with a payload always
has its presentation submitted (for patientName `Rex`, petName `Buddy` and no message the
body is `'Rex - Buddy için hekim olarak atandınız'`), and an event without payload makes the
handler throw before anything is submitted. -/
theorem doctor_assignment_presentation (data : Option AssignmentPayload)
    (p : AssignmentPayload) (scheduled : Bool) (c : NotificationContent) (r : Bool) :
    (doctorAssignmentHandler data scheduled = .ok (c, r) →
        includes c.title "Hekim Ataması" = true
          ∧ c.priority = some "high"
          ∧ c.categoryIdentifier = some "medical"
          ∧ c.sound = .file alertSound
          ∧ c.vibrate = some [0, 250, 250, 250]
          ∧ r = scheduled
          ∧ ∃ q, data = some q
              ∧ c.body = orElse q.message (templateText q.patientName ++ " - "
                  ++ templateText q.petName ++ " için hekim olarak atandınız"))
      ∧ doctorAssignmentHandler (some p) scheduled
          = .ok (showNotification (onDoctorAssignment p) scheduled)
      ∧ doctorAssignmentHandler none scheduled = .error "TypeError: message of undefined"
      ∧ (doctorAssignmentHandler
          (some { message := none, patientName := some "Rex", petName := some "Buddy" })
          true).map (fun x => (x.1.body, x.2))
          = .ok ("Rex - Buddy için hekim olarak atandınız", true) := by
  refine ⟨?_, rfl, rfl, ?_⟩
  · intro h
    cases data with
    | none => exact Except.noConfusion h
    | some q =>
      have hq : showNotification (onDoctorAssignment q) scheduled = (c, r) := by
        have h2 : (Except.ok (showNotification (onDoctorAssignment q) scheduled) :
            Except String (NotificationContent × Bool)) = .ok (c, r) := h
        exact Except.ok.inj h2
      have hc : c = (showNotification (onDoctorAssignment q) scheduled).1 := by rw [hq]
      have hr : r = (showNotification (onDoctorAssignment q) scheduled).2 := by rw [hq]
      have hbody : (showNotification (onDoctorAssignment q) scheduled).1.body
          = orElse q.message (templateText q.patientName ++ " - " ++ templateText q.petName
              ++ " için hekim olarak atandınız") := by
        show orElse (some (orElse q.message _)) _ = _
        exact orElse_some _ _ (orElse_ne_empty _ _ (append_ne_empty _ _ (by decide)))
      rw [hc, hr]
      refine ⟨?_, rfl, rfl, rfl, rfl, rfl, q, rfl, hbody⟩
      show includes "👨‍⚕️ Hekim Ataması" "Hekim Ataması" = true
      decide
  · rfl

/-- Witness for C18: the event with patientName `Rex`, petName `Buddy` and no message. -/
theorem doctor_assignment_presentation_witness :
    doctorAssignmentHandler
        (some { message := none, patientName := some "Rex", petName := some "Buddy" }) true
        = .ok (showNotification (onDoctorAssignment
            { message := none, patientName := some "Rex", petName := some "Buddy" }) true)
      ∧ (showNotification (onDoctorAssignment
          { message := none, patientName := some "Rex", petName := some "Buddy" })
          true).1.priority = some "high"
      ∧ (showNotification (onDoctorAssignment
          { message := none, patientName := some "Rex", petName := some "Buddy" })
          true).1.vibrate = some [0, 250, 250, 250] :=
  ⟨rfl,
    ((doctor_assignment_presentation
      (some { message := none, patientName := some "Rex", petName := some "Buddy" })
      { message := none, patientName := some "Rex", petName := some "Buddy" } true
      (showNotification (onDoctorAssignment
        { message := none, patientName := some "Rex", petName := some "Buddy" }) true).1
      (showNotification (onDoctorAssignment
        { message := none, patientName := some "Rex", petName := some "Buddy" }) true).2).1
      rfl).2.1,
    ((doctor_assignment_presentation
      (some { message := none, patientName := some "Rex", petName := some "Buddy" })
      { message := none, patientName := some "Rex", petName := some "Buddy" } true
      (showNotification (onDoctorAssignment
        { message := none, patientName := some "Rex", petName := some "Buddy" }) true).1
      (showNotification (onDoctorAssignment
        { message := none, patientName := some "Rex", petName := some "Buddy" }) true).2).1
      rfl).2.2.2.2.1⟩

/-- C19: the presentation that `showNotification` submits has the alert sound and vibration
`[0, 250, 250, 250]` when the event's priority is `'urgent'` or `'high'`, sound `false` and
vibration `[0, 100]` when it is `'low'`, and otherwise the default sound and no vibration
pattern. -/
theorem priority_sound_vibration (data : NotificationData) (scheduled : Bool) :
    ((data.priority = some "urgent" ∨ data.priority = some "high") →
        (showNotification data scheduled).1.sound = .file "./assets/notification_sound.wav"
          ∧ (showNotification data scheduled).1.vibrate = some [0, 250, 250, 250])
      ∧ (data.priority = some "low" →
        (showNotification data scheduled).1.sound = .off
          ∧ (showNotification data scheduled).1.vibrate = some [0, 100])
      ∧ (data.priority ≠ some "urgent" → data.priority ≠ some "high" →
          data.priority ≠ some "low" →
        (showNotification data scheduled).1.sound = .file "./assets/notification_sound.wav"
          ∧ (showNotification data scheduled).1.vibrate = none)
      ∧ (showNotification data scheduled).2 = scheduled :=
  ⟨(notificationContent_sound_vibrate data).1, (notificationContent_sound_vibrate data).2.1,
    (notificationContent_sound_vibrate data).2.2, rfl⟩

/-- Witness for C19: an urgent system event, a low-priority event and an event without
priority, each handed to `showNotification`. -/
theorem priority_sound_vibration_witness :
    (showNotification
        { type := some "system", title := none, body := none, content := none,
          priority := some "urgent", sender_name := none, message := .absent,
          category := none } true).1.vibrate = some [0, 250, 250, 250]
      ∧ (showNotification
        { type := some "daily_report", title := none, body := none, content := none,
          priority := some "low", sender_name := none, message := .absent,
          category := none } true).1.sound = .off
      ∧ (showNotification
        { type := some "notification:new", title := none, body := none, content := none,
          priority := none, sender_name := none, message := .absent,
          category := none } true).1.vibrate = none :=
  ⟨((priority_sound_vibration _ true).1 (Or.inl rfl)).2,
    ((priority_sound_vibration _ true).2.1 rfl).1,
    ((priority_sound_vibration _ true).2.2.1 (by decide) (by decide) (by decide)).2⟩

/-- C25: the constructor stores `'disconnected'`, and in every state reached from it by
calls of `initialize`, `connect`, `disconnect`, `getConnectionStatus`, transport events and
flag changes the stored state is one of `'disconnected'`, `'connecting'`, `'connected'`,
`'error'`. -/
theorem status_always_valid (acts : List Action) :
    constructor.connectionStatus = "disconnected"
      ∧ ValidStatus (run constructor acts).connectionStatus
      ∧ ValidStatus (getConnectionStatus (run constructor acts)).2 :=
  ⟨rfl, run_validStatus acts constructor (Or.inl rfl),
    getConnectionStatus_validStatus _ (run_validStatus acts constructor (Or.inl rfl))⟩

/-- C26 as stated fails: a generic `notification` event of type `doctor_assignment` without
priority gives a presentation of priority `'high'` with no vibration pattern, and an event
of type `product_low_stock` with priority `'low'` gives a presentation of priority `'high'`
that is silent with the short vibration. -/
theorem high_tier_without_alert :
    (notificationContent (onNotification
        { type := some "doctor_assignment", title := none, body := none, content := none,
          priority := none, sender_name := none, message := .absent,
          category := none })).priority = some "high"
      ∧ (notificationContent (onNotification
        { type := some "doctor_assignment", title := none, body := none, content := none,
          priority := none, sender_name := none, message := .absent,
          category := none })).vibrate = none
      ∧ (notificationContent
        { type := some "product_low_stock", title := none, body := none, content := none,
          priority := some "low", sender_name := none, message := .absent,
          category := none }).priority = some "high"
      ∧ (notificationContent
        { type := some "product_low_stock", title := none, body := none, content := none,
          priority := some "low", sender_name := none, message := .absent,
          category := none }).sound = .off
      ∧ (notificationContent
        { type := some "product_low_stock", title := none, body := none, content := none,
          priority := some "low", sender_name := none, message := .absent,
          category := none }).vibrate = some [0, 100] := by
  decide

/-- C26, amended: a presentation carries the alert sound together with the strong vibration
pattern exactly when the event's own priority is `'urgent'` or `'high'`, whatever the
presentation's priority tier; for the events dispatched by the handlers of
`notification:doctor_assignment` and `notification:product_low_stock` the tier is `'high'`
and both are set, and for those of `notification:system` a tier `'high'` implies both. -/
theorem alert_follows_event_priority (data : NotificationData) (p1 : AssignmentPayload)
    (p2 : StockPayload) (p3 : SystemPayload) :
    (((notificationContent data).sound = .file alertSound
        ∧ (notificationContent data).vibrate = some strongVibration)
      ↔ (data.priority = some "urgent" ∨ data.priority = some "high"))
      ∧ ((notificationContent (onDoctorAssignment p1)).priority = some "high"
        ∧ (notificationContent (onDoctorAssignment p1)).sound = .file alertSound
        ∧ (notificationContent (onDoctorAssignment p1)).vibrate = some strongVibration)
      ∧ ((notificationContent (onProductLowStock p2)).priority = some "high"
        ∧ (notificationContent (onProductLowStock p2)).sound = .file alertSound
        ∧ (notificationContent (onProductLowStock p2)).vibrate = some strongVibration)
      ∧ ((notificationContent (onSystem p3)).priority = some "high" →
        (notificationContent (onSystem p3)).sound = .file alertSound
          ∧ (notificationContent (onSystem p3)).vibrate = some strongVibration) := by
  obtain ⟨h1, h2, h3⟩ := notificationContent_sound_vibrate data
  refine ⟨⟨?_, h1⟩, ⟨rfl, rfl, rfl⟩, ⟨rfl, rfl, rfl⟩, ?_⟩
  · rintro ⟨-, hv⟩
    by_contra hn
    have hu : data.priority ≠ some "urgent" := fun h => hn (Or.inl h)
    have hh : data.priority ≠ some "high" := fun h => hn (Or.inr h)
    by_cases hl : data.priority = some "low"
    · rw [(h2 hl).2] at hv
      exact absurd hv (by decide)
    · rw [(h3 hu hh hl).2] at hv
      exact Option.noConfusion hv
  · intro hp
    have hu : (onSystem p3).priority = some "urgent" := by
      by_contra hne
      have : (notificationContent (onSystem p3)).priority = some "default" := by
        show (applyPriority _ (customise _ _)).priority = _
        rw [(applyPriority_frame _ _).2.2.2.1]
        unfold customise
        simp [onSystem] at hne ⊢
        exact hne
      rw [this] at hp
      exact absurd hp (by decide)
    exact (notificationContent_sound_vibrate (onSystem p3)).1 (Or.inl hu)

/-- Witness for C26, amended: an urgent system event. -/
theorem alert_follows_event_priority_witness :
    (notificationContent (onSystem { message := none, priority := some "urgent" })).priority
        = some "high"
      ∧ (notificationContent (onSystem { message := none, priority := some "urgent" })).vibrate
        = some strongVibration :=
  ⟨by decide,
    ((alert_follows_event_priority (onSystem { message := none, priority := some "urgent" })
      { message := none, patientName := none, petName := none }
      { message := none, productName := none }
      { message := none, priority := some "urgent" }).2.2.2 (by decide)).2⟩

/-- C27: `initialize(token, cb)` stores `cb` (`null` when it is left out) as the error
callback, and until the next `initialize` it stays stored; every error report afterwards
(`connect_error`, `error` and `auth_error` events that carry their payload,
`reconnect_failed`, and `connect` or `initialize` itself finding no token) calls a function
callback exactly once with the message and calls nothing when the callback is `null`.  But
a `connect_error`, `error` or `auth_error` event delivered without payload makes its
handler throw before the report: the callback is not called at all. -/
theorem error_callback_replaced (s : SocketService) (tok : Token) (cb : Callback)
    (rest : List Action) (e : Event) (msg : String) (id : Nat)
    (hrest : ∀ a ∈ rest, isInitialise a = false) (he : reportedMessage e = some msg) :
    (run (initialise s tok cb) rest).onConnectionError = cb
      ∧ (handle (run (initialise s tok cb) rest) e).errorCalls
          = (run (initialise s tok cb) rest).errorCalls ++ callbackCalls cb msg
      ∧ ((run (initialise s tok cb) rest).token.truthy = false →
          (connect (run (initialise s tok cb) rest)).errorCalls
            = (run (initialise s tok cb) rest).errorCalls
                ++ callbackCalls cb "SocketService: No token provided for connection")
      ∧ (tok.truthy = false →
          (initialise s tok cb).errorCalls
            = s.errorCalls ++ callbackCalls cb "SocketService: No token provided for connection")
      ∧ callbackCalls .null msg = []
      ∧ callbackCalls (.fn id) msg = [(id, msg)]
      ∧ ((handle (run (initialise s tok cb) rest) .authErrorWithoutPayload).errorCalls
            = (run (initialise s tok cb) rest).errorCalls
          ∧ (handle (run (initialise s tok cb) rest) .authErrorWithoutPayload).alerts
            = (run (initialise s tok cb) rest).alerts
          ∧ uncaught .authErrorWithoutPayload = some "TypeError: message of undefined")
      ∧ ((handle (run (initialise s tok cb) rest) .errorWithoutPayload).errorCalls
            = (run (initialise s tok cb) rest).errorCalls
          ∧ uncaught .errorWithoutPayload = some "TypeError: message of undefined")
      ∧ ((handle (run (initialise s tok cb) rest) .connectErrorWithoutPayload).errorCalls
            = (run (initialise s tok cb) rest).errorCalls
          ∧ uncaught .connectErrorWithoutPayload = some "TypeError: message of undefined") := by
  have hcb : (run (initialise s tok cb) rest).onConnectionError = cb := by
    rw [run_callback rest _ hrest]
    show (connect _).onConnectionError = cb
    rw [connect_callback]
  refine ⟨hcb, ?_, ?_, ?_, rfl, rfl, ⟨rfl, rfl, rfl⟩, ⟨rfl, rfl⟩, ⟨rfl, rfl⟩⟩
  · rw [handle_report _ e msg he, hcb]
  · intro ht
    have : connect (run (initialise s tok cb) rest)
        = handleConnectionError (run (initialise s tok cb) rest)
            "SocketService: No token provided for connection" := by
      simp [connect, ht]
    rw [this, (handleConnectionError_report _ _).2, hcb]
  · intro ht
    rw [initialise_falsy s tok cb ht, (handleConnectionError_report _ _).2]

/-- Witness for C27: after `initialize("tok", cb)` an `auth_error` with payload calls `cb`
once, an `auth_error` without payload calls nothing; after `initialize("tok")` without
callback, as `reconnectSocket` calls it, and two failures, `reconnect_failed` calls
nothing. -/
theorem error_callback_replaced_witness :
    (handle (run (initialise constructor (.str "tok") (.fn 0)) []) (.authError none)).errorCalls
        = [] ++ [(0, "Yetkilendirme hatası: Token geçersiz")]
      ∧ (handle (run (initialise constructor (.str "tok") (.fn 0)) [])
          .authErrorWithoutPayload).errorCalls = []
      ∧ (run (initialise connectedOnce (.str "tok") .null)
        [.event (.connectError none), .event (.reconnectAttempt 1)]).onConnectionError = .null
      ∧ (handle (run (initialise connectedOnce (.str "tok") .null)
          [.event (.connectError none), .event (.reconnectAttempt 1)]) .reconnectFailed).errorCalls
        = (run (initialise connectedOnce (.str "tok") .null)
            [.event (.connectError none), .event (.reconnectAttempt 1)]).errorCalls ++ [] :=
  ⟨(error_callback_replaced constructor (.str "tok") (.fn 0) [] (.authError none)
      "Yetkilendirme hatası: Token geçersiz" 0 (by decide) (by decide)).2.1,
    (error_callback_replaced constructor (.str "tok") (.fn 0) [] (.authError none)
      "Yetkilendirme hatası: Token geçersiz" 0 (by decide) (by decide)).2.2.2.2.2.2.1.1,
    (error_callback_replaced connectedOnce (.str "tok") .null
      [.event (.connectError none), .event (.reconnectAttempt 1)] .reconnectFailed
      reconnectFailedMessage 0 (by decide) rfl).1,
    (error_callback_replaced connectedOnce (.str "tok") .null
      [.event (.connectError none), .event (.reconnectAttempt 1)] .reconnectFailed
      reconnectFailedMessage 0 (by decide) rfl).2.1⟩

end SocketService

namespace ApiService

open SocketService (Token orElse includes)

theorem loadTokenFromStorage_storage (s : ApiService) :
    (loadTokenFromStorage s).storage = s.storage := by
  unfold loadTokenFromStorage
  split
  · split <;> rfl
  · rfl

/-- The state after `fetchWithAuth` when the response is not handled as JSON: only the
initial reload of the token may have changed it. -/
theorem fetchWithAuth_non_json (s : ApiService) (r : Response)
    (h : (match r.contentType with
          | some ct => ct != "" && includes ct "application/json"
          | none => false) = false) :
    (fetchWithAuth s (.response r)).1
      = if s.token.truthy = false then loadTokenFromStorage s else s := by
  unfold fetchWithAuth
  simp only [h]
  rfl

/-- C11: a 401 response whose content type is not JSON (here `text/html`, or no
`content-type` header at all) leaves the persisted entry in place, and a manager holding
`"tok"` keeps it in memory as well; the same 401 with a JSON content type clears both. -/
theorem unauthorized_non_json_keeps_token (s : ApiService) (ok : Bool) (j : JsonResult)
    (body : String) :
    (fetchWithAuth s (.response
        { status := 401, ok := ok, contentType := some "text/html", json := j,
          text := body })).1.storage = s.storage
      ∧ (fetchWithAuth s (.response
        { status := 401, ok := ok, contentType := none, json := j,
          text := body })).1.storage = s.storage
      ∧ (fetchWithAuth { token := .str "tok", storage := some "tok" } (.response
        { status := 401, ok := false, contentType := some "text/html", json := .throws none,
          text := "Unauthorized" })).1 = { token := .str "tok", storage := some "tok" }
      ∧ (fetchWithAuth { token := .str "tok", storage := some "tok" } (.response
        { status := 401, ok := false, contentType := some "application/json",
          json := .parsed "unauthorized", text := "" })).1 = { token := .null, storage := none } := by
  have key : ∀ t : ApiService,
      (if t.token.truthy = false then loadTokenFromStorage t else t).storage = t.storage := by
    intro t
    split
    · exact loadTokenFromStorage_storage t
    · rfl
  refine ⟨?_, ?_, by decide, by decide⟩
  · have hct : (("text/html" : String) != "" && includes "text/html" "application/json")
        = false := by decide
    rw [fetchWithAuth_non_json s _ hct]
    exact key s
  · rw [fetchWithAuth_non_json s _ rfl]
    exact key s

theorem setToken_token (s : ApiService) (token : Token) : (setToken s token).token = token := by
  unfold setToken saveTokenToStorage
  split
  · split <;> rfl
  · rfl

theorem setToken_falsy (s : ApiService) (token : Token) (h : token.truthy = false) :
    setToken s token = { s with token := token } := by
  unfold setToken saveTokenToStorage
  split
  · rename_i t
    have : t = "" := by simpa [Token.truthy] using h
    simp [this]
  · rfl

/-- C28: `setToken(t)` with a non-empty string makes the in-memory token and the persisted
entry equal to `t`; `setToken` with `null`, `undefined` or the empty string stores that
falsy value in memory and leaves the persisted entry as it was, so that a following
`fetchWithAuth` reloads a non-empty persisted token into memory and sends it as
`Bearer <token>`. -/
theorem setToken_effect (s : ApiService) (t : String) (token : Token) (p : String)
    (reply : FetchReply) :
    (t ≠ "" → setToken s (.str t) = { token := .str t, storage := some t })
      ∧ (token.truthy = false →
          (setToken s token).token = token ∧ (setToken s token).storage = s.storage)
      ∧ (token.truthy = false → s.storage = some p → p ≠ "" →
          (fetchWithAuth (setToken s token) reply).2.1 = some ("Bearer " ++ p)
            ∧ (if (setToken s token).token.truthy = false
                then loadTokenFromStorage (setToken s token)
                else setToken s token).token = .str p) := by
  refine ⟨?_, ?_, ?_⟩
  · intro ht
    simp [setToken, saveTokenToStorage, ht]
  · intro ht
    rw [setToken_falsy s token ht]
    exact ⟨rfl, rfl⟩
  · intro ht hs hp
    rw [setToken_falsy s token ht]
    have hload : (if ({ s with token := token } : ApiService).token.truthy = false
          then loadTokenFromStorage { s with token := token }
          else { s with token := token })
        = { token := .str p, storage := some p } := by
      simp [ht, loadTokenFromStorage, hs, hp]
    refine ⟨?_, by rw [hload]⟩
    have hhead : (fetchWithAuth { s with token := token } reply).2.1
        = authorization (if ({ s with token := token } : ApiService).token.truthy = false
            then loadTokenFromStorage { s with token := token }
            else { s with token := token }) := by
      unfold fetchWithAuth
      cases reply with
      | rejected m => rfl
      | response r =>
        dsimp only
        split
        · split <;> rfl
        · rfl
    rw [hhead, hload]
    simp [authorization, hp]

/-- Witness for C28: a logout (`setToken(null)`) after `setToken("tok")`, then a request. -/
theorem setToken_effect_witness :
    setToken { token := .null, storage := none } (.str "tok")
        = { token := .str "tok", storage := some "tok" }
      ∧ (setToken { token := .str "tok", storage := some "tok" } .null).storage = some "tok"
      ∧ (fetchWithAuth (setToken { token := .str "tok", storage := some "tok" } .null)
          (.rejected none)).2.1 = some "Bearer tok" :=
  ⟨(setToken_effect { token := .null, storage := none } "tok" .null "tok" (.rejected none)).1
      (by decide),
    ((setToken_effect { token := .str "tok", storage := some "tok" } "tok" .null "tok"
      (.rejected none)).2.1 rfl).2,
    ((setToken_effect { token := .str "tok", storage := some "tok" } "tok" .null "tok"
      (.rejected none)).2.2 rfl rfl (by decide)).1⟩

end ApiService

namespace EnhancedNotificationService

theorem onCountResponse_badgeCalls (e : EnhancedNotificationService)
    (response : Option CountResponse) :
    (onCountResponse e response).badgeCalls = e.badgeCalls ++ (badgeOf response).toList := by
  cases response with
  | none => simp [onCountResponse, badgeOf]
  | some r =>
    cases hr : r.success <;>
      simp [onCountResponse, badgeOf, hr, updateAppBadge, notifyUnreadCountChanged]

theorem updateUnreadCount_badgeCalls (e : EnhancedNotificationService) (socketHeld : Bool) :
    (updateUnreadCount e socketHeld).badgeCalls = e.badgeCalls := by
  cases socketHeld <;> rfl

/-- C20 as stated fails: the presentation request built for a doctor-assignment event
carries the badge number 1 although the server has returned no count at all. -/
theorem presentation_badge_is_client_side :
    (SocketService.notificationContent
        (SocketService.onDoctorAssignment
          { message := none, patientName := some "Rex", petName := some "Buddy" })).badge = 1
      ∧ (updateUnreadCount constructor true).badgeCalls = []
      ∧ (onCountResponse (updateUnreadCount constructor true)
          (some { success := false, count := some 7 })).badgeCalls = [] := by
  decide

/-- C20, amended: every value passed to `setBadgeCountAsync` comes from a successful
`notification:get_count` response, namely its `count`, or 0 when the response carries no
count (unsuccessful and missing responses update nothing, and sending the request updates
nothing); every presentation request built by `showNotification` carries the fixed badge
number 1. -/
theorem badge_updates_from_server (e : EnhancedNotificationService)
    (responses : List (Option CountResponse)) (socketHeld : Bool)
    (data : SocketService.NotificationData) :
    (responses.foldl onCountResponse e).badgeCalls
        = e.badgeCalls ++ responses.filterMap badgeOf
      ∧ (updateUnreadCount e socketHeld).badgeCalls = e.badgeCalls
      ∧ (SocketService.notificationContent data).badge = 1 := by
  refine ⟨?_, updateUnreadCount_badgeCalls e socketHeld, ?_⟩
  · induction responses generalizing e with
    | nil => simp
    | cons r rest ih =>
      rw [List.foldl_cons, ih, onCountResponse_badgeCalls]
      cases h : badgeOf r <;> simp [List.filterMap_cons, h]
  · have h1 := (SocketService.applyPriority_frame data
      (SocketService.customise data (SocketService.baseContent data))).2.2.2.2
    have h2 := (SocketService.customise_frame data (SocketService.baseContent data)).2.2
    show (SocketService.applyPriority data _).badge = 1
    rw [h1, h2]
    rfl

end EnhancedNotificationService

namespace WebViewUtils

theorem mk_data (s : String) : String.mk s.data = s := rfl

theorem getWebSocketUrl_http (token rest : String) :
    getWebSocketUrl token ("http://" ++ rest) = "ws://" ++ rest ++ "?token=" ++ token := by
  unfold getWebSocketUrl
  have h : ("http://" ++ rest).data
      = 'h' :: 't' :: 't' :: 'p' :: ':' :: '/' :: '/' :: rest.data := by
    rw [String.data_append]; rfl
  rw [h]
  show "ws://" ++ String.mk rest.data ++ "?token=" ++ token = _
  rw [mk_data]

theorem getWebSocketUrl_https (token rest : String) :
    getWebSocketUrl token ("https://" ++ rest) = "https://" ++ rest ++ "?token=" ++ token := by
  unfold getWebSocketUrl
  have h : ("https://" ++ rest).data
      = 'h' :: 't' :: 't' :: 'p' :: 's' :: ':' :: '/' :: '/' :: rest.data := by
    rw [String.data_append]; rfl
  rw [h]
  rfl

theorem getWebSocketUrl_ws (token rest : String) :
    getWebSocketUrl token ("ws://" ++ rest) = "ws://" ++ rest ++ "?token=" ++ token
      ∧ getWebSocketUrl token ("wss://" ++ rest) = "wss://" ++ rest ++ "?token=" ++ token := by
  unfold getWebSocketUrl
  have h1 : ("ws://" ++ rest).data = 'w' :: 's' :: ':' :: '/' :: '/' :: rest.data := by
    rw [String.data_append]; rfl
  have h2 : ("wss://" ++ rest).data = 'w' :: 's' :: 's' :: ':' :: '/' :: '/' :: rest.data := by
    rw [String.data_append]; rfl
  rw [h1, h2]
  exact ⟨rfl, rfl⟩

theorem head_ne (a b : String) (x y : Char) (ha : a.data.head? = some x)
    (hb : b.data.head? = some y) (hxy : x ≠ y) : a ≠ b := by
  intro h
  rw [h, hb] at ha
  exact hxy (Option.some.inj ha).symm

/-- C24: for a base URL with the `https://` scheme `getWebSocketUrl` returns the base URL
unchanged, still with `https://`, followed by `?token=` and the token, not a `wss://` URL;
for `http://` it returns the `ws://` form, and a base URL starting with `ws://` or `wss://`
is kept as it is. -/
theorem getWebSocketUrl_keeps_https (token rest : String) :
    getWebSocketUrl token ("https://" ++ rest) = "https://" ++ rest ++ "?token=" ++ token
      ∧ getWebSocketUrl token ("https://" ++ rest) ≠ "wss://" ++ rest ++ "?token=" ++ token
      ∧ getWebSocketUrl "abc" "https://zylo.vet" = "https://zylo.vet?token=abc"
      ∧ getWebSocketUrl token ("http://" ++ rest) = "ws://" ++ rest ++ "?token=" ++ token
      ∧ getWebSocketUrl token ("ws://" ++ rest) = "ws://" ++ rest ++ "?token=" ++ token
      ∧ getWebSocketUrl token ("wss://" ++ rest) = "wss://" ++ rest ++ "?token=" ++ token := by
  refine ⟨getWebSocketUrl_https token rest, ?_, by decide, getWebSocketUrl_http token rest,
    (getWebSocketUrl_ws token rest).1, (getWebSocketUrl_ws token rest).2⟩
  rw [getWebSocketUrl_https]
  apply head_ne _ _ 'h' 'w'
  · simp only [String.data_append]; rfl
  · simp only [String.data_append]; rfl
  · decide

end WebViewUtils

namespace App

open SocketService (Token)
open WebViewUtils (Value parseWebViewMessage)

theorem parseWebViewMessage_error (jsonParse : String → Except String Value) (d err : String)
    (h : jsonParse d = .error err) : parseWebViewMessage jsonParse (some d) = .null := by
  simp [parseWebViewMessage, h]

theorem parseWebViewMessage_ok (jsonParse : String → Except String Value) (d : String)
    (v : Value) (h : jsonParse d = .ok v) : parseWebViewMessage jsonParse (some d) = v := by
  simp [parseWebViewMessage, h]

/-- C23: when `JSON.parse` throws, `parseWebViewMessage` returns `null` and
`handleWebViewMessage` returns without any effect; but for a message of type
`login.error` or `global.error` that has no `data` field `handleWebViewMessage` lets the
`TypeError` raised by reading `data.data.error` escape. -/
theorem bridge_message_without_data_throws (jsonParse : String → Except String Value)
    (d : String) :
    (∀ err, jsonParse d = .error err →
        parseWebViewMessage jsonParse (some d) = .null
          ∧ handleWebViewMessage jsonParse (some d) = .ok [])
      ∧ (jsonParse d = .ok (.obj [("type", .str "login.error")]) →
          handleWebViewMessage jsonParse (some d) = .error "TypeError: error of undefined")
      ∧ (jsonParse d = .ok (.obj [("type", .str "global.error")]) →
          handleWebViewMessage jsonParse (some d) = .error "TypeError: error of undefined") := by
  refine ⟨?_, ?_, ?_⟩
  · intro err h
    refine ⟨parseWebViewMessage_error jsonParse d err h, ?_⟩
    unfold handleWebViewMessage
    rw [parseWebViewMessage_error jsonParse d err h]
    rfl
  · intro h
    unfold handleWebViewMessage
    rw [parseWebViewMessage_ok jsonParse d _ h]
    rfl
  · intro h
    unfold handleWebViewMessage
    rw [parseWebViewMessage_ok jsonParse d _ h]
    rfl

/-- Witness for C23: a parser that fails, and a parser that yields the object with only
`type: 'login.error'`. -/
theorem bridge_message_without_data_throws_witness :
    handleWebViewMessage (fun _ => .error "SyntaxError") (some "not json") = .ok []
      ∧ handleWebViewMessage (fun _ => .ok (.obj [("type", .str "login.error")]))
          (some "login error message") = .error "TypeError: error of undefined" :=
  ⟨((bridge_message_without_data_throws (fun _ => .error "SyntaxError") "not json").1
      "SyntaxError" rfl).2,
    (bridge_message_without_data_throws (fun _ => .ok (.obj [("type", .str "login.error")]))
      "login error message").2.1 rfl⟩

/-! ### Device registration -/

/-- With two non-empty tokens the request is issued, for exactly that pair. -/
theorem registerPushTokenWithServer_issues (a : App) (token authToken : Token)
    (h1 : authToken.truthy = true) (h2 : token.truthy = true) :
    registerPushTokenWithServer a token authToken
      = { a with api := ApiService.setToken a.api authToken
                 inFlight := a.inFlight ++ [(authToken, token)]
                 registerCalls := a.registerCalls ++ [(authToken, token)] } := by
  have ht : (ApiService.setToken a.api authToken).token = authToken :=
    ApiService.setToken_token a.api authToken
  simp [registerPushTokenWithServer, ApiService.registerPushToken, ht, h1, h2]

theorem registerTokenIfNeeded_registered (a : App) (h : a.tokenRegistered = true) :
    registerTokenIfNeeded a = a := by
  simp [registerTokenIfNeeded, h]

theorem registerTokenIfNeeded_issues (a : App) (h0 : a.tokenRegistered = false)
    (h1 : a.authToken.truthy = true) (h2 : a.expoPushToken.truthy = true) :
    registerTokenIfNeeded a
      = { a with api := ApiService.setToken a.api a.authToken
                 inFlight := a.inFlight ++ [(a.authToken, a.expoPushToken)]
                 registerCalls := a.registerCalls ++ [(a.authToken, a.expoPushToken)] } := by
  have hc : (a.authToken.truthy && a.expoPushToken.truthy && !a.tokenRegistered) = true := by
    rw [h0, h1, h2]; rfl
  unfold registerTokenIfNeeded
  rw [if_pos hc]
  exact registerPushTokenWithServer_issues a _ _ h1 h2

theorem registerTokenIfNeeded_idle (a : App)
    (h : (a.authToken.truthy && a.expoPushToken.truthy && !a.tokenRegistered) = false) :
    registerTokenIfNeeded a = a := by
  simp [registerTokenIfNeeded, h]

theorem registrationSettled_frame (a : App) (i : Nat) (reply : ApiService.FetchReply)
    (e h : Bool) :
    (registrationSettled a i reply e h).registerCalls = a.registerCalls
      ∧ (a.tokenRegistered = true → (registrationSettled a i reply e h).tokenRegistered = true)
      ∧ (∀ p ∈ (registrationSettled a i reply e h).inFlight, p ∈ a.inFlight) := by
  unfold registrationSettled
  cases hi : a.inFlight[i]? with
  | none => exact ⟨rfl, fun h => h, fun p hp => hp⟩
  | some q =>
    dsimp only
    split
    · exact ⟨rfl, fun _ => rfl, fun p hp => List.mem_of_mem_eraseIdx hp⟩
    · exact ⟨rfl, fun h => h, fun p hp => List.mem_of_mem_eraseIdx hp⟩

theorem registrationSettled_success (a : App) (i : Nat) (reply : ApiService.FetchReply)
    (e h : Bool) (hi : a.inFlight[i]?.isSome = true)
    (hs : (ApiService.afterFetch a.api reply).2.success = true) :
    (registrationSettled a i reply e h).tokenRegistered = true := by
  unfold registrationSettled
  cases hq : a.inFlight[i]? with
  | none => rw [hq] at hi; exact absurd hi (by decide)
  | some q =>
    dsimp only
    rw [if_pos hs]

/-- Once the flag is set, no step issues a request or clears the flag. -/
theorem step_registered (a : App) (st : Step) (h : a.tokenRegistered = true) :
    (step a st).tokenRegistered = true ∧ (step a st).registerCalls = a.registerCalls := by
  cases st with
  | setExpoPushToken t => exact ⟨h, rfl⟩
  | tokenMessage v => exact ⟨h, rfl⟩
  | evaluate =>
    have hst : step a .evaluate = a := registerTokenIfNeeded_registered a h
    rw [hst]
    exact ⟨h, rfl⟩
  | settled i reply e g =>
    exact ⟨(registrationSettled_frame a i reply e g).2.1 h,
      (registrationSettled_frame a i reply e g).1⟩

theorem run_registered (steps : List Step) (a : App) (h : a.tokenRegistered = true) :
    (run a steps).tokenRegistered = true ∧ (run a steps).registerCalls = a.registerCalls := by
  induction steps generalizing a with
  | nil => exact ⟨h, rfl⟩
  | cons st rest ih =>
    obtain ⟨h1, h2⟩ := step_registered a st h
    obtain ⟨h3, h4⟩ := ih (step a st) h1
    exact ⟨h3, by rw [← h2]; exact h4⟩

theorem step_callsOk (a : App) (st : Step) (h : CallsOk a) : CallsOk (step a st) := by
  cases st with
  | setExpoPushToken t => exact h
  | tokenMessage v => exact h
  | evaluate =>
    show CallsOk (registerTokenIfNeeded a)
    cases hc : (a.authToken.truthy && a.expoPushToken.truthy && !a.tokenRegistered) with
    | false => rw [registerTokenIfNeeded_idle a hc]; exact h
    | true =>
      simp only [Bool.and_eq_true, Bool.not_eq_true'] at hc
      rw [registerTokenIfNeeded_issues a hc.2 hc.1.1 hc.1.2]
      constructor
      · intro c hmem
        rcases List.mem_append.1 hmem with h1 | h1
        · exact h.1 c h1
        · rw [List.mem_singleton.1 h1]
          exact ⟨hc.1.1, hc.1.2⟩
      · intro p hmem
        rcases List.mem_append.1 hmem with h1 | h1
        · exact List.mem_append_left _ (h.2 p h1)
        · exact List.mem_append_right _ h1
  | settled i reply e g =>
    obtain ⟨h1, -, h3⟩ := registrationSettled_frame a i reply e g
    constructor
    · intro c hmem
      exact h.1 c (by rw [← h1]; exact hmem)
    · intro p hmem
      show p ∈ (registrationSettled a i reply e g).registerCalls
      rw [h1]
      exact h.2 p (h3 p hmem)

theorem run_callsOk (steps : List Step) (a : App) (h : CallsOk a) : CallsOk (run a steps) := by
  induction steps generalizing a with
  | nil => exact h
  | cons st rest ih => exact ih _ (step_callsOk a st h)

theorem initial_callsOk : CallsOk initial :=
  ⟨fun c hc => absurd hc (List.not_mem_nil c), fun p hp => absurd hp (List.not_mem_nil p)⟩

/-- C21: in every run of the registration state, every registration request issued carried
a non-empty auth token and a non-empty push token, every pending request is one of those
issued, and once a pending request has settled successfully the `tokenRegistered` flag is
set and no later step, however often the effect is evaluated, issues another request. -/
theorem registration_issued_once (history later : List Step) (i : Nat)
    (reply : ApiService.FetchReply) (e g : Bool) :
    (∀ c ∈ (run initial history).registerCalls, c.1.truthy = true ∧ c.2.truthy = true)
      ∧ (∀ p ∈ (run initial history).inFlight, p ∈ (run initial history).registerCalls)
      ∧ ((run initial history).inFlight[i]?.isSome = true →
          (ApiService.afterFetch (run initial history).api reply).2.success = true →
          (step (run initial history) (.settled i reply e g)).tokenRegistered = true
            ∧ (run (step (run initial history) (.settled i reply e g)) later).registerCalls
                = (run initial history).registerCalls) := by
  obtain ⟨h1, h2⟩ := run_callsOk history initial initial_callsOk
  refine ⟨h1, h2, ?_⟩
  intro hi hs
  have hflag : (step (run initial history) (.settled i reply e g)).tokenRegistered = true :=
    registrationSettled_success (run initial history) i reply e g hi hs
  refine ⟨hflag, ?_⟩
  rw [(run_registered later _ hflag).2]
  exact (registrationSettled_frame (run initial history) i reply e g).1

/-- Witness for C21: push token, auth token, one request, its success, then the effect is
evaluated again twice around a repeated token message. -/
theorem registration_issued_once_witness :
    (run initial [.setExpoPushToken (.str "P"), .tokenMessage (.str "A"), .evaluate]).registerCalls
        = [(.str "A", .str "P")]
      ∧ (run (step (run initial
          [.setExpoPushToken (.str "P"), .tokenMessage (.str "A"), .evaluate])
          (.settled 0 okReply false false))
          [.evaluate, .tokenMessage (.str "A"), .evaluate]).registerCalls
        = (run initial
          [.setExpoPushToken (.str "P"), .tokenMessage (.str "A"), .evaluate]).registerCalls :=
  ⟨by decide,
    ((registration_issued_once
      [.setExpoPushToken (.str "P"), .tokenMessage (.str "A"), .evaluate]
      [.evaluate, .tokenMessage (.str "A"), .evaluate] 0 okReply false false).2.2
        (by decide) (by decide)).2⟩

/-- C22 as stated fails: after the registration for `("A", "P")` has succeeded, the auth
token changes to `"B"` and the effect is evaluated, yet no request for `("B", "P")` is
issued. -/
theorem registration_not_repeated_for_new_token :
    (run initial [.setExpoPushToken (.str "P"), .tokenMessage (.str "A"), .evaluate,
        .settled 0 okReply false false, .tokenMessage (.str "B"), .evaluate]).registerCalls
        = [(.str "A", .str "P")]
      ∧ (run initial [.setExpoPushToken (.str "P"), .tokenMessage (.str "A"), .evaluate,
        .settled 0 okReply false false, .tokenMessage (.str "B"), .evaluate]).authToken
        = .str "B"
      ∧ (run initial [.setExpoPushToken (.str "P"), .tokenMessage (.str "A"), .evaluate,
        .settled 0 okReply false false, .tokenMessage (.str "B"), .evaluate]).tokenRegistered
        = true := by
  decide

/-- C22, amended: a change of the auth token or push token leads to a registration request
for the new pair only while no registration has succeeded yet (and both tokens are
non-empty); once one has succeeded the `tokenRegistered` flag is never cleared, so the
effect issues no request for any new pair. -/
theorem registration_armed_until_first_success (a : App) (auth push : Token)
    (steps : List Step) :
    (a.tokenRegistered = false → auth.truthy = true → push.truthy = true →
        (registerTokenIfNeeded { a with authToken := auth, expoPushToken := push }).registerCalls
          = a.registerCalls ++ [(auth, push)])
      ∧ (a.tokenRegistered = true →
        (registerTokenIfNeeded { a with authToken := auth, expoPushToken := push }).registerCalls
          = a.registerCalls)
      ∧ (a.tokenRegistered = true →
        (run a steps).tokenRegistered = true ∧ (run a steps).registerCalls = a.registerCalls) := by
  refine ⟨?_, ?_, run_registered steps a⟩
  · intro h0 h1 h2
    rw [registerTokenIfNeeded_issues { a with authToken := auth, expoPushToken := push } h0 h1 h2]
  · intro h
    rw [registerTokenIfNeeded_registered { a with authToken := auth, expoPushToken := push } h]

/-- Witness for C22, amended: before any success a new auth token is registered; after the
success it is not. -/
theorem registration_armed_until_first_success_witness :
    (registerTokenIfNeeded
        { run initial [.setExpoPushToken (.str "P")] with
          authToken := .str "B", expoPushToken := .str "P" }).registerCalls
        = [(.str "B", .str "P")]
      ∧ (registerTokenIfNeeded
        { run initial [.setExpoPushToken (.str "P"), .tokenMessage (.str "A"), .evaluate,
            .settled 0 okReply false false] with
          authToken := .str "B", expoPushToken := .str "P" }).registerCalls
        = [(.str "A", .str "P")] :=
  ⟨(registration_armed_until_first_success (run initial [.setExpoPushToken (.str "P")])
      (.str "B") (.str "P") []).1 (by decide) (by decide) (by decide),
    (registration_armed_until_first_success
      (run initial [.setExpoPushToken (.str "P"), .tokenMessage (.str "A"), .evaluate,
        .settled 0 okReply false false]) (.str "B") (.str "P") []).2.1 (by decide)⟩

end App
